import Mathlib

/-!
# J&T Express booking automation (`backend/jt_booking.js`)

A shallow embedding of the booking pipeline.  Every interaction with the
outside world (browser, page, network, timers) is an `Op`; the outside world is
a `Behaviour`, a deterministic function of the history of interactions so far,
which decides whether the next interaction rejects and what it yields.  A
computation threads the chronological list of `Event`s (the trace) and either
returns a value or throws an `Error` whose `message` is a string.
-/

namespace OrderSystem

/-! ## Values -/

/-- A JavaScript value that can reach a page interaction: `undefined` (an absent
order field), a string, or a member inherited from `Object.prototype` (what a
lookup in an object literal yields for keys such as `constructor`); such a
member is a function or an object, hence truthy and not a string. -/
inductive JsValue
  | undefined
  | str (s : String)
  | inherited (key : String)
  deriving DecidableEq, Repr

/-- JavaScript truthiness of the values above. -/
def JsValue.truthy : JsValue → Bool
  | .undefined => false
  | .str s => s != ""
  | .inherited _ => true

/-- The JavaScript expression `a || b`. -/
def JsValue.or (a b : JsValue) : JsValue :=
  if a.truthy then a else b

/-- A property of the request object: absent (`none`) or a string. -/
def prop (field : Option String) : JsValue :=
  match field with
  | none => .undefined
  | some s => .str s

/-- The order object handed to `bookJTExpress` (the JSON body of `/book-jt`);
every field is a string or absent. -/
structure OrderData where
  orderId : Option String
  customerName : Option String
  contact : Option String
  address : Option String
  weight : Option String
  packageSize : Option String
  category : Option String
  notes : Option String
  deriving DecidableEq, Repr

/-- The value returned by `bookJTExpress` (lines 85-89). -/
structure BookingResult where
  success : Bool
  trackingNumber : String
  message : String
  deriving DecidableEq, Repr

/-! ## Interactions with the outside world -/

/-- One interaction with the outside world.  Browsers are named by a handle. -/
inductive Op
  | launch
  | newContext (browser : Nat)
  | newPage (browser : Nat)
  | setDefaultTimeout (ms : Nat)
  | goto (url : String)
  | waitForSelector (selector : String) (timeout : Nat)
  | fill (selector : String) (value : JsValue)
  | click (selector : String)
  | selectOption (selector : String) (value : JsValue)
  | check (selector : String)
  | waitForNavigation
  | isVisible (selector : String) (timeout : Nat)
  | elementClick (selector : String)
  | textContent (selector : String)
  | waitForTimeout (ms : Nat)
  | close (browser : Nat)
  | fetch (url : String) (orderId : JsValue) (status : String) (trackingNumber : String)
  | json
  | sleep (ms : Nat)
  deriving DecidableEq, Repr

/-- An interaction that happened, with the message of the error it threw, if any. -/
structure Event where
  op : Op
  error : Option String
  deriving DecidableEq, Repr

/-- A value of `Math.random()`: a double that is at least 0 and below 1, namely
`mantissa / 2 ^ exponent` with a significand of at most 53 bits and an exponent
a double can have. -/
structure Draw where
  mantissa : Nat
  exponent : Nat
  precision : mantissa < 2 ^ 53
  below_one : mantissa < 2 ^ exponent
  exponent_le : exponent ≤ 1074

/-- The number of bits of `n` beyond 53: the least `s` with `n / 2 ^ s < 2 ^ 53`.
The first argument bounds the search; `n` itself is enough. -/
def excessBits : Nat → Nat → Nat
  | 0, _ => 0
  | fuel + 1, n => if n < 2 ^ 53 then 0 else excessBits fuel (n / 2) + 1

/-- Rounding of a natural number to a significand of 53 bits, to nearest, ties
to even: what every operation on doubles does to its exact result. -/
def roundToDouble (n : Nat) : Nat :=
  let s := excessBits n n
  let q := n / 2 ^ s
  let r := n % 2 ^ s
  if 2 * r > 2 ^ s ∨ (2 * r = 2 ^ s ∧ q % 2 = 1) then (q + 1) * 2 ^ s else q * 2 ^ s

/-- The expression `Math.floor(draw * k)` for a natural number `k` a double
holds exactly: the product of two doubles is the exact product
`mantissa * k / 2 ^ exponent` rounded to a double, and `Math.floor` is exact. -/
def Draw.floorTimes (draw : Draw) (k : Nat) : Nat :=
  roundToDouble (draw.mantissa * k) / 2 ^ draw.exponent

/-- The outside world: given the history, whether the next interaction throws
(and with which message), what a visibility probe or a text read yields when it
does not throw (`none` is `null`), the clock and the random source. -/
structure Behaviour where
  fails : List Event → Op → Option String
  visible : List Event → String → Bool
  text : List Event → String → Option String
  now : List Event → Nat
  random : List Event → Draw

deriving instance DecidableEq for Except

/-- A computation: reads the behaviour, extends the trace, returns or throws. -/
def M (α : Type) : Type :=
  Behaviour → List Event → Except String α × List Event

/-- Return a value. -/
def M.pure {α : Type} (a : α) : M α :=
  fun _ t => (.ok a, t)

/-- Sequencing: an exception of the first computation skips the second. -/
def M.bind {α β : Type} (m : M α) (f : α → M β) : M β :=
  fun env t =>
    match m env t with
    | (.ok a, t1) => f a env t1
    | (.error msg, t1) => (.error msg, t1)

instance : Monad M where
  pure := M.pure
  bind := M.bind

/-- The statement `throw new Error(msg)`. -/
def throwNew {α : Type} (msg : String) : M α :=
  fun _ t => (.error msg, t)

/-- The statement `try { body } catch (error) { handler(error.message) }`. -/
def tryCatch {α : Type} (body : M α) (handler : String → M α) : M α :=
  fun env t =>
    match body env t with
    | (.ok a, t1) => (.ok a, t1)
    | (.error msg, t1) => handler msg env t1

/-- An awaited interaction without a result of interest. -/
def perform (op : Op) : M Unit :=
  fun env t =>
    match env.fails t op with
    | none => (.ok (), t ++ [⟨op, none⟩])
    | some msg => (.error msg, t ++ [⟨op, some msg⟩])

/-- Number of browsers launched so far (successful `chromium.launch` calls). -/
def launched (t : List Event) : Nat :=
  t.countP (fun e => e.op = .launch && e.error.isNone)

/-- The call `chromium.launch(...)`: yields the handle of a new browser. -/
def chromiumLaunch : M Nat :=
  fun env t =>
    match env.fails t .launch with
    | none => (.ok (launched t), t ++ [⟨.launch, none⟩])
    | some msg => (.error msg, t ++ [⟨.launch, some msg⟩])

/-- The call `page.locator(selector).first().isVisible({ timeout })`. -/
def isVisible (selector : String) (timeout : Nat) : M Bool :=
  fun env t =>
    match env.fails t (.isVisible selector timeout) with
    | none => (.ok (env.visible t selector), t ++ [⟨.isVisible selector timeout, none⟩])
    | some msg => (.error msg, t ++ [⟨.isVisible selector timeout, some msg⟩])

/-- The call `element.textContent()`; `none` is `null`. -/
def textContent (selector : String) : M (Option String) :=
  fun env t =>
    match env.fails t (.textContent selector) with
    | none => (.ok (env.text t selector), t ++ [⟨.textContent selector, none⟩])
    | some msg => (.error msg, t ++ [⟨.textContent selector, some msg⟩])

/-- The call `sleep(ms)` (lines 494-496): a timer, which cannot throw. -/
def sleep (ms : Nat) : M Unit :=
  fun _ t => (.ok (), t ++ [⟨.sleep ms, none⟩])

/-- The call `Date.now()`. -/
def dateNow : M Nat :=
  fun env t => (.ok (env.now t), t)

/-- The call `Math.random()`. -/
def mathRandom : M Draw :=
  fun env t => (.ok (env.random t), t)

/-! ## String helpers -/

/-- Whether `sub` occurs in the character list: `String.prototype.includes`. -/
def includesChars (sub : List Char) : List Char → Bool
  | [] => sub.isEmpty
  | c :: cs => sub.isPrefixOf (c :: cs) || includesChars sub cs

/-- The call `s.includes(sub)`. -/
def includes (s sub : String) : Bool :=
  includesChars sub.data s.data

/-- Remove the first occurrence of `pat`: `s.replace(pat, '')` on characters. -/
def removeFirstChars (pat : List Char) : List Char → List Char
  | [] => []
  | c :: cs =>
    if pat.isPrefixOf (c :: cs) then (c :: cs).drop pat.length
    else c :: removeFirstChars pat cs

/-- The call `s.replace(pat, '')` for a string pattern. -/
def removeFirst (s pat : String) : String :=
  ⟨removeFirstChars pat.data s.data⟩

/-- The call `s.slice(-n)`: the last `n` characters (all of them if fewer). -/
def sliceLast (n : Nat) (s : String) : String :=
  ⟨s.data.drop (s.data.length - n)⟩

/-- The call `s.padStart(n, c)` for a one-character filler. -/
def padStart (s : String) (n : Nat) (c : Char) : String :=
  ⟨List.replicate (n - s.data.length) c ++ s.data⟩

/-- The digits at the head of a character list (`\d+`, greedy). -/
def leadingDigits (cs : List Char) : List Char :=
  cs.takeWhile Char.isDigit

/-- The call `text.match(/JT\d+/)`: the leftmost match, if any, as `match[0]`. -/
def matchTrackingChars : List Char → Option (List Char)
  | [] => none
  | c :: cs =>
    if c = 'J' ∧ cs.head? = some 'T' ∧ (leadingDigits cs.tail) ≠ [] then
      some ('J' :: 'T' :: leadingDigits cs.tail)
    else matchTrackingChars cs

/-- The call `text.match(/JT\d+/)` on a string. -/
def matchTracking (text : String) : Option String :=
  (matchTrackingChars text.data).map String.mk

/-! ## Configuration (lines 11-37) -/

/-- The environment variables read by `CONFIG`. -/
structure ProcessEnv where
  JT_EMAIL : Option String
  JT_PASSWORD : Option String
  SENDER_NAME : Option String
  SENDER_CONTACT : Option String
  SENDER_ADDRESS : Option String
  SENDER_COMPANY : Option String
  APPS_SCRIPT_WEBHOOK : Option String

/-- The expression `process.env.X || fallback`. -/
def orDefault (v : Option String) (fallback : String) : String :=
  match v with
  | some s => if s != "" then s else fallback
  | none => fallback

/-- The object `CONFIG.SENDER`. -/
structure Sender where
  name : String
  contact : String
  address : String
  company : String

/-- The object `CONFIG` (only the fields the booking code reads). -/
structure Config where
  JT_PORTAL_URL : String
  LOGIN_EMAIL : String
  LOGIN_PASSWORD : String
  SENDER : Sender
  timeout : Nat
  MAX_RETRIES : Nat
  RETRY_DELAY : Nat
  APPS_SCRIPT_WEBHOOK : String

/-- The constant `CONFIG` of lines 11-37, as a function of the environment. -/
def CONFIG (penv : ProcessEnv) : Config where
  JT_PORTAL_URL := "https://portal.jtexpress.ph"
  LOGIN_EMAIL := orDefault penv.JT_EMAIL ""
  LOGIN_PASSWORD := orDefault penv.JT_PASSWORD ""
  SENDER :=
    { name := orDefault penv.SENDER_NAME "Your Business Name"
      contact := orDefault penv.SENDER_CONTACT "09123456789"
      address := orDefault penv.SENDER_ADDRESS "Your Business Address, City, Province, ZIP"
      company := orDefault penv.SENDER_COMPANY "Your Company Name" }
  timeout := 30000
  MAX_RETRIES := 3
  RETRY_DELAY := 2000
  APPS_SCRIPT_WEBHOOK := orDefault penv.APPS_SCRIPT_WEBHOOK ""

/-! ## The selector cascade and the steps -/

/-- The loop shared by every cascade (lines 125-132, 266-273, 336-347, 390-397):
`for (const selector of selectors) { try { await act(selector); break; } catch (e) { continue; } }`. -/
def tryEach (act : String → M Unit) : List String → M Unit
  | [] => pure ()
  | selector :: rest => tryCatch (act selector) (fun _ => tryEach act rest)

/-- A `for ... of` loop whose body has no `break`. -/
def forEach {α : Type} (body : α → M Unit) : List α → M Unit
  | [] => pure ()
  | x :: rest => do
    body x
    forEach body rest

/-- Login to the portal (lines 116-171). -/
def loginToJT (cfg : Config) : M Unit :=
  tryCatch
    (do
      perform (.waitForSelector "input[type=\"email\"], input[name=\"email\"], #email" 10000)
      tryEach (fun selector => perform (.fill selector (.str cfg.LOGIN_EMAIL)))
        ["input[type=\"email\"]", "input[name=\"email\"]", "#email", ".email-input"]
      tryEach (fun selector => perform (.fill selector (.str cfg.LOGIN_PASSWORD)))
        ["input[type=\"password\"]", "input[name=\"password\"]", "#password", ".password-input"]
      tryEach (fun selector => perform (.click selector))
        ["button[type=\"submit\"]", ".login-button", "#login-btn", "input[type=\"submit\"]"]
      perform .waitForNavigation
      let isLoggedIn ← isVisible "text=/dashboard|booking|shipment/i" 5000
      if !isLoggedIn then throwNew "Login verification failed" else pure ())
    (fun msg => throwNew ("Login failed: " ++ msg))

/-- The candidates of lines 181-189. -/
def bookingSelectors : List String :=
  ["text=/create.*shipment/i", "text=/new.*booking/i", "text=/book.*shipment/i",
   ".booking-btn", "#create-shipment", "a[href*=\"booking\"]", "a[href*=\"shipment\"]"]

/-- The loop of lines 191-202: the first candidate that is visible and whose
click and navigation wait both succeed ends the loop. -/
def clickBookingLink : List String → M Unit
  | [] => pure ()
  | selector :: rest => do
    let stop ← tryCatch
      (do
        let visible ← isVisible selector 2000
        if visible then
          perform (.elementClick selector)
          perform .waitForNavigation
          pure true
        else
          pure false)
      (fun _ => pure false)
    if stop then pure () else clickBookingLink rest

/-- Navigate to the booking form (lines 176-216). -/
def navigateToBookingForm : M Unit :=
  tryCatch
    (do
      clickBookingLink bookingSelectors
      let isBookingForm ← isVisible "text=/sender|receiver|package|booking/i" 5000
      if !isBookingForm then throwNew "Could not navigate to booking form" else pure ())
    (fun msg => throwNew ("Navigation to booking form failed: " ++ msg))

/-- The five candidates of lines 258-264 and 289-295 for one field. -/
def inputSelectors (fieldType : String) : List String :=
  ["input[name*=\"" ++ fieldType ++ "\"]", "input[id*=\"" ++ fieldType ++ "\"]",
   "input[class*=\"" ++ fieldType ++ "\"]", "textarea[name*=\"" ++ fieldType ++ "\"]",
   "textarea[id*=\"" ++ fieldType ++ "\"]"]

/-- The object `senderFields` of lines 250-255, in `Object.entries` order. -/
def senderFields (cfg : Config) : List (String × JsValue) :=
  [("sender_name", .str cfg.SENDER.name), ("sender_contact", .str cfg.SENDER.contact),
   ("sender_address", .str cfg.SENDER.address), ("sender_company", .str cfg.SENDER.company)]

/-- Fill sender information (lines 249-275). -/
def fillSenderInfo (cfg : Config) : M Unit :=
  forEach
    (fun (entry : String × JsValue) =>
      tryEach (fun selector => perform (.fill selector entry.2)) (inputSelectors entry.1))
    (senderFields cfg)

/-- The object `receiverFields` of lines 281-286. -/
def receiverFields (orderData : OrderData) : List (String × JsValue) :=
  [("receiver_name", prop orderData.customerName), ("receiver_contact", prop orderData.contact),
   ("receiver_address", prop orderData.address), ("receiver_phone", prop orderData.contact)]

/-- Fill receiver information (lines 280-306). -/
def fillReceiverInfo (orderData : OrderData) : M Unit :=
  forEach
    (fun (entry : String × JsValue) =>
      tryEach (fun selector => perform (.fill selector entry.2)) (inputSelectors entry.1))
    (receiverFields orderData)

/-- The property names every object literal inherits from `Object.prototype`. -/
def objectPrototypeKeys : List String :=
  ["constructor", "__defineGetter__", "__defineSetter__", "hasOwnProperty",
   "__lookupGetter__", "__lookupSetter__", "isPrototypeOf", "propertyIsEnumerable",
   "toString", "valueOf", "__proto__", "toLocaleString"]

/-- The property key a value is converted to in `object[value]`. -/
def propertyKey : JsValue → String
  | .undefined => "undefined"
  | .str s => s
  | .inherited key => key

/-- The lookup `packageSizeMap[key]` in the object literal of lines 313-317:
its own three properties, then those of its prototype. -/
def packageSizeMap (key : JsValue) : JsValue :=
  if propertyKey key = "Small" then .str "1"
  else if propertyKey key = "Medium" then .str "2"
  else if propertyKey key = "Large" then .str "3"
  else if propertyKey key ∈ objectPrototypeKeys then .inherited (propertyKey key)
  else .undefined

/-- The object `packageFields` of lines 319-325. -/
def packageFields (orderData : OrderData) : List (String × JsValue) :=
  [("weight", (prop orderData.weight).or (.str "0.5")),
   ("package_size", (packageSizeMap (prop orderData.packageSize)).or (.str "2")),
   ("category", (prop orderData.category).or (.str "General")),
   ("description", (prop orderData.notes).or (.str "Online order item")),
   ("quantity", .str "1")]

/-- The five candidates of lines 328-334 for one field. -/
def packageSelectors (fieldType : String) : List String :=
  ["input[name*=\"" ++ fieldType ++ "\"]", "input[id*=\"" ++ fieldType ++ "\"]",
   "select[name*=\"" ++ fieldType ++ "\"]", "select[id*=\"" ++ fieldType ++ "\"]",
   "textarea[name*=\"" ++ fieldType ++ "\"]"]

/-- The interaction of lines 338-342 for one candidate. -/
def fillOrSelect (value : JsValue) (selector : String) : M Unit :=
  if includes selector "select" then perform (.selectOption selector value)
  else perform (.fill selector value)

/-- Fill package information (lines 311-349). -/
def fillPackageInfo (orderData : OrderData) : M Unit :=
  forEach
    (fun (entry : String × JsValue) =>
      tryEach (fillOrSelect entry.2) (packageSelectors entry.1))
    (packageFields orderData)

/-- The candidates of lines 355-359. -/
def paymentSelectors (method : String) : List String :=
  ["input[value*=\"" ++ method ++ "\"]", "option[value*=\"" ++ method ++ "\"]",
   "select[name*=\"payment\"] option:has-text(\"" ++ method ++ "\")"]

/-- The interaction of lines 363-367 for one candidate. -/
def checkOrSelect (method : String) (selector : String) : M Unit :=
  if includes selector "input" then perform (.check selector)
  else if includes selector "option" then
    perform (.selectOption (removeFirst selector " option") (.str method))
  else pure ()

/-- Set payment method (lines 354-373). -/
def setPaymentMethod (method : String) : M Unit :=
  tryEach (checkOrSelect method) (paymentSelectors method)

/-- Fill booking form with order data (lines 221-244); `none` is `null`. -/
def fillBookingForm (cfg : Config) (orderData : OrderData) : M (Option String) :=
  tryCatch
    (do
      fillSenderInfo cfg
      fillReceiverInfo orderData
      fillPackageInfo orderData
      setPaymentMethod "prepaid"
      pure none)
    (fun msg => throwNew ("Form filling failed: " ++ msg))

/-- The candidates of lines 382-388. -/
def submitSelectors : List String :=
  ["button[type=\"submit\"]", "input[type=\"submit\"]", ".submit-btn", "#submit-booking",
   "text=/submit|book now|create/i"]

/-- Submit booking form (lines 378-407). -/
def submitBooking : M Unit :=
  tryCatch
    (do
      tryEach (fun selector => perform (.click selector)) submitSelectors
      perform .waitForNavigation)
    (fun msg => throwNew ("Booking submission failed: " ++ msg))

/-- Generate mock tracking number (lines 459-463). -/
def generateMockTrackingNumber : M String := do
  let now ← dateNow
  let timestamp := sliceLast 8 (toString now)
  let draw ← mathRandom
  let random := padStart (toString (draw.floorTimes 1000)) 3 '0'
  pure ("JT" ++ timestamp ++ random)

/-- The candidates of lines 420-427. -/
def trackingSelectors : List String :=
  ["text=/JT[0-9]+/", "text=/tracking.*number/i", ".tracking-number", "#tracking-number",
   "[class*=\"tracking\"]", "[id*=\"tracking\"]"]

/-- Lines 430-443, one iteration of the loop over the candidates: `some` is the
`return trackingMatch[0]` of line 438, `none` is the iteration ending without a
`return`.  Reading `match` of a `null` text throws a `TypeError`, which the
`catch` of line 441 absorbs like any other error. -/
def probeTracking (selector : String) : M (Option String) :=
  tryCatch
    (do
      let visible ← isVisible selector 2000
      if visible then do
        let text ← textContent selector
        match text with
        | none => throwNew "Cannot read properties of null"
        | some s => pure (matchTracking s)
      else
        pure none)
    (fun _ => pure none)

/-- The loop of lines 429-444: the first candidate whose iteration returns ends
the loop; `none` is the loop running to its end. -/
def scanTracking : List String → M (Option String)
  | [] => pure none
  | selector :: rest => do
    let found ← probeTracking selector
    match found with
    | some trackingNumber => pure (some trackingNumber)
    | none => scanTracking rest

/-- Extract tracking number from confirmation page (lines 412-454). -/
def extractTrackingNumber : M String :=
  tryCatch
    (do
      perform (.waitForTimeout 3000)
      let found ← scanTracking trackingSelectors
      match found with
      | some trackingNumber => pure trackingNumber
      | none => generateMockTrackingNumber)
    (fun _ => generateMockTrackingNumber)

/-- Update order status via webhook (lines 468-489). -/
def updateOrderStatus (cfg : Config) (orderId : JsValue) (status trackingNumber : String) :
    M Unit :=
  tryCatch
    (do
      perform (.fetch cfg.APPS_SCRIPT_WEBHOOK orderId status trackingNumber)
      perform .json)
    (fun _ => pure ())

/-! ## The retry orchestrator (lines 42-111) -/

/-- Lines 52-74: the steps of one attempt once `chromium.launch` has resolved
and `browser` holds the new handle; the value is `finalTrackingNumber`. -/
def runSteps (cfg : Config) (orderData : OrderData) (browser : Nat) : M String := do
  perform (.newContext browser)
  perform (.newPage browser)
  perform (.setDefaultTimeout cfg.timeout)
  perform (.goto cfg.JT_PORTAL_URL)
  loginToJT cfg
  navigateToBookingForm
  let trackingNumber ← fillBookingForm cfg orderData
  submitBooking
  match trackingNumber with
  | some tn => if tn != "" then pure tn else extractTrackingNumber
  | none => extractTrackingNumber

/-- Lines 76-92: the tracking-number check that ends the `try` block. -/
def finish (cfg : Config) (orderData : OrderData) (browser : Nat)
    (finalTrackingNumber : String) : M BookingResult :=
  if finalTrackingNumber != "" then do
    (if cfg.APPS_SCRIPT_WEBHOOK != "" then
      updateOrderStatus cfg (prop orderData.orderId) "Ready to Ship" finalTrackingNumber
    else pure ())
    perform (.close browser)
    pure { success := true, trackingNumber := finalTrackingNumber,
           message := "Booking completed successfully" }
  else
    throwNew "Could not extract tracking number"

/-- Lines 52-92: the `try` block after the launch. -/
def session (cfg : Config) (orderData : OrderData) (browser : Nat) : M BookingResult := do
  let finalTrackingNumber ← runSteps cfg orderData browser
  finish cfg orderData browser finalTrackingNumber

/-- Lines 47-92: the whole `try` block of one attempt. -/
def attempt (cfg : Config) (orderData : OrderData) : M BookingResult := do
  let browser ← chromiumLaunch
  session cfg orderData browser

/-- Lines 94-109: the `catch` block, entered with the value `browser` holds and
the message of the caught error; `retry` is the next iteration of the loop. -/
def onFailure {α : Type} (cfg : Config) (browser : Option Nat) (attemptNo : Nat)
    (msg : String) (retry : Nat → M α) : M α := do
  match browser with
  | some b => perform (.close b)
  | none => pure ()
  let attemptNo := attemptNo + 1
  if attemptNo ≥ cfg.MAX_RETRIES then
    throwNew ("Booking failed after " ++ toString cfg.MAX_RETRIES ++ " attempts: " ++ msg)
  else do
    sleep cfg.RETRY_DELAY
    retry attemptNo

/-- The `while` loop of lines 46-110, entered with `attempt = attemptNo` and the
current value of the variable `browser`.  The first argument bounds the number
of iterations left; `none` is the loop ending without a `return`. -/
def bookLoop (cfg : Config) (orderData : OrderData) :
    Nat → Nat → Option Nat → M (Option BookingResult)
  | 0, _, _ => pure none
  | fuel + 1, attemptNo, browser =>
    if attemptNo < cfg.MAX_RETRIES then
      fun env t =>
        match chromiumLaunch env t with
        | (.error msg, t1) =>
          onFailure cfg browser attemptNo msg (fun n => bookLoop cfg orderData fuel n browser) env t1
        | (.ok b, t1) =>
          match session cfg orderData b env t1 with
          | (.ok result, t2) => (.ok (some result), t2)
          | (.error msg, t2) =>
            onFailure cfg (some b) attemptNo msg
              (fun n => bookLoop cfg orderData fuel n (some b)) env t2
    else pure none

/-- Main booking function (lines 42-111): `attempt` starts at 0, `browser` at
`null`; each iteration raises `attempt` by one, so `MAX_RETRIES` iterations
are all the loop can run. -/
def bookJTExpress (cfg : Config) (orderData : OrderData) : M (Option BookingResult) :=
  bookLoop cfg orderData cfg.MAX_RETRIES 0 none

/-! ## The HTTP shell (lines 508-534) -/

/-- What the handler of `/book-jt` sends back. -/
inductive HttpResponse
  | json (status : Nat) (body : Option BookingResult)
  | failure (status : Nat) (message : String)
  deriving DecidableEq, Repr

/-- The handler of `POST /book-jt` (lines 508-534). -/
def bookJtHandler (cfg : Config) (orderData : OrderData) : M HttpResponse :=
  tryCatch
    (do
      if !(prop orderData.orderId).truthy || !(prop orderData.customerName).truthy ||
          !(prop orderData.contact).truthy || !(prop orderData.address).truthy then
        pure (.failure 400 "Missing required fields")
      else
        let result ← bookJTExpress cfg orderData
        pure (.json 200 result))
    (fun msg => pure (.failure 500 msg))

/-! ## The storefront order form (`frontend/script.js`, lines 217-238) -/

/-- The code points of ECMAScript `WhiteSpace` and `LineTerminator`: what
`trim()` strips and what `\s` matches. -/
def isJsWhitespace (c : Char) : Bool :=
  c.toNat = 0x09 || c.toNat = 0x0A || c.toNat = 0x0B || c.toNat = 0x0C || c.toNat = 0x0D ||
  c.toNat = 0x20 || c.toNat = 0xA0 || c.toNat = 0x1680 ||
  (0x2000 ≤ c.toNat && c.toNat ≤ 0x200A) || c.toNat = 0x2028 || c.toNat = 0x2029 ||
  c.toNat = 0x202F || c.toNat = 0x205F || c.toNat = 0x3000 || c.toNat = 0xFEFF

/-- The call `s.trim()`. -/
def trim (s : String) : String :=
  ⟨((s.data.dropWhile isJsWhitespace).reverse.dropWhile isJsWhitespace).reverse⟩

/-- The property `s.length`: the number of UTF-16 code units. -/
def jsLength (s : String) : Nat :=
  (s.data.map (fun c => if c.toNat < 0x10000 then 1 else 2)).sum

/-- The call `s.replace(/\s+/g, '')`. -/
def removeWhitespace (s : String) : String :=
  ⟨s.data.filter (fun c => !isJsWhitespace c)⟩

/-- The rest of a match of `\d{9}$`: nine digits up to the end of the input. -/
def nineDigits (cs : List Char) : Bool :=
  cs.length = 9 && cs.all Char.isDigit

/-- The call `phoneRegex.test(s)` for `/^(09|\+639)\d{9}$/` (line 227). -/
def phoneRegexTest (s : String) : Bool :=
  match s.data with
  | '0' :: '9' :: rest => nineDigits rest
  | '+' :: '6' :: '3' :: '9' :: rest => nineDigits rest
  | _ => false

/-- The test `!v || v.trim().length < n` of lines 221 and 233, on the value
`formData.get(...)` returns: `null` (`none`) or a string. -/
def missingOrShort (v : Option String) (n : Nat) : Bool :=
  match v with
  | none => true
  | some s => s == "" || decide (jsLength (trim s) < n)

/-- The test `!contact || !phoneRegex.test(contact.replace(/\s+/g, ''))` of
line 228. -/
def contactInvalid (contact : Option String) : Bool :=
  match contact with
  | none => true
  | some s => s == "" || !phoneRegexTest (removeWhitespace s)

/-- Validate form data (lines 217-238); `formData` is `formData.get`. -/
def validateOrderForm (formData : String → Option String) : List String :=
  let errors : List String := []
  let errors :=
    if missingOrShort (formData "customerName") 2 then
      errors ++ ["Please enter a valid customer name (minimum 2 characters)"]
    else errors
  let contact := formData "contact"
  let errors :=
    if contactInvalid contact then
      errors ++ ["Please enter a valid Philippine mobile number (09xxxxxxxxx)"]
    else errors
  let errors :=
    if missingOrShort (formData "address") 10 then
      errors ++ ["Please enter a complete shipping address (minimum 10 characters)"]
    else errors
  errors

/-! ## Trace observations -/

/-- Number of `chromium.launch` calls in a trace, resolved or not. -/
def launchCalls (t : List Event) : Nat :=
  t.countP (fun e => e.op = .launch)

/-- Number of `browser.close()` calls in a trace, on any browser. -/
def closeCalls (t : List Event) : Nat :=
  t.countP (fun e => match e.op with | .close _ => true | _ => false)

/-- Number of `browser.close()` calls on the browser with handle `b`. -/
def closesOf (b : Nat) (t : List Event) : Nat :=
  t.countP (fun e => e.op = .close b)

/-- The status updates issued in a trace: each `fetch` of `updateOrderStatus`,
as (orderId, status, trackingNumber). -/
def statusUpdates (t : List Event) : List (JsValue × String × String) :=
  t.filterMap (fun e => match e.op with
    | .fetch _ orderId status trackingNumber => some (orderId, status, trackingNumber)
    | _ => none)



/-! ## Specification vocabulary -/

/-- The computation `m` only extends the trace, by events whose interaction
satisfies `P`. -/
def Emits {α : Type} (P : Op → Prop) (m : M α) : Prop :=
  ∀ env t, ∃ es, (m env t).2 = t ++ es ∧ ∀ e ∈ es, P e.op

/-- An interaction with the page of the current attempt: anything but a browser
launch, a browser close, the status webhook and the retry timer. -/
def Op.onPage : Op → Prop
  | .launch => False
  | .close _ => False
  | .fetch _ _ _ _ => False
  | .json => False
  | .sleep _ => False
  | _ => True

/-- The characters `cs` hold a match of `/JT\d+/` after `pre`: the letters `JT`
followed by the digits `ds`, of which there is at least one. -/
def TrackingAt (pre ds post cs : List Char) : Prop :=
  cs = pre ++ 'J' :: 'T' :: ds ++ post ∧ ds ≠ [] ∧ ∀ d ∈ ds, d.isDigit = true

/-- The text contains a substring matching `JT` followed by one or more digits. -/
def HasTracking (cs : List Char) : Prop :=
  ∃ pre ds post, TrackingAt pre ds post cs

/-- The characters `m` are the leftmost substring of `cs` matching `JT` followed
by digits: no match starts earlier, and the digits run as far as they can. -/
def LeftmostTracking (cs m : List Char) : Prop :=
  ∃ pre ds post, TrackingAt pre ds post cs ∧ m = 'J' :: 'T' :: ds ∧
    (∀ d, post.head? = some d → d.isDigit = false) ∧
    ∀ pre1 ds1 post1, TrackingAt pre1 ds1 post1 cs → pre.length ≤ pre1.length

/-- The candidate `selector`, probed at trace `t`, is skipped: the visibility
probe throws or finds it not visible, or the text read throws, or the text is
`null` or holds no match. -/
def Skipped (env : Behaviour) (selector : String) (t : List Event) : Prop :=
  env.fails t (.isVisible selector 2000) ≠ none ∨ env.visible t selector = false ∨
  env.fails (t ++ [⟨.isVisible selector 2000, none⟩]) (.textContent selector) ≠ none ∨
  ∀ text, env.text (t ++ [⟨.isVisible selector 2000, none⟩]) selector = some text →
    ¬ HasTracking text.data

/-- The candidate `selector`, probed at trace `t`, is visible and shows `text`. -/
def Shows (env : Behaviour) (selector text : String) (t : List Event) : Prop :=
  env.fails t (.isVisible selector 2000) = none ∧ env.visible t selector = true ∧
  env.fails (t ++ [⟨.isVisible selector 2000, none⟩]) (.textContent selector) = none ∧
  env.text (t ++ [⟨.isVisible selector 2000, none⟩]) selector = some text

/-- The number a list of decimal digits denotes, most significant digit first. -/
def decimalValue (cs : List Char) : Nat :=
  cs.foldl (fun acc c => 10 * acc + (c.toNat - 48)) 0

/-- The first candidate of every field of the booking form, in the order in
which `fillBookingForm` reaches them: the four sender fields, the four
receiver fields, the five package fields, then the payment method. -/
def firstCandidates (cfg : Config) (orderData : OrderData) : List Op :=
  (senderFields cfg ++ receiverFields orderData ++ packageFields orderData).map
      (fun entry => Op.fill ("input[name*=\"" ++ entry.1 ++ "\"]") entry.2) ++
    [.check "input[value*=\"prepaid\"]"]

/-- The booking candidate `selector`, probed at trace `t`, is found visible. -/
def VisibleAt (env : Behaviour) (selector : String) (t : List Event) : Prop :=
  env.fails t (.isVisible selector 2000) = none ∧ env.visible t selector = true

/-- The booking candidate `selector`, probed at trace `t`, is passed over: the
probe throws or finds it not visible. -/
def NotVisibleAt (env : Behaviour) (selector : String) (t : List Event) : Prop :=
  env.fails t (.isVisible selector 2000) ≠ none ∨ env.visible t selector = false

/-- What the loop over the booking candidates (lines 191-202) adds to the trace
`t`, candidate by candidate: a candidate whose probe throws or finds it not
visible is passed over; a visible candidate is clicked and the navigation
awaited; when the click or the wait throws the loop goes on to the next
candidate; when both resolve the loop ends. -/
inductive BookingScan (env : Behaviour) : List String → List Event → List Event → Prop
  | done (t : List Event) : BookingScan env [] t []
  | passedOver {s : String} {rest : List String} {t es : List Event} :
      NotVisibleAt env s t →
      BookingScan env rest (t ++ [⟨.isVisible s 2000, env.fails t (.isVisible s 2000)⟩]) es →
      BookingScan env (s :: rest) t (⟨.isVisible s 2000, env.fails t (.isVisible s 2000)⟩ :: es)
  | clickThrows {s : String} {rest : List String} {t es : List Event} {msg : String} :
      VisibleAt env s t →
      env.fails (t ++ [⟨.isVisible s 2000, none⟩]) (.elementClick s) = some msg →
      BookingScan env rest (t ++ [⟨.isVisible s 2000, none⟩, ⟨.elementClick s, some msg⟩]) es →
      BookingScan env (s :: rest) t
        (⟨.isVisible s 2000, none⟩ :: ⟨.elementClick s, some msg⟩ :: es)
  | waitThrows {s : String} {rest : List String} {t es : List Event} {msg : String} :
      VisibleAt env s t →
      env.fails (t ++ [⟨.isVisible s 2000, none⟩]) (.elementClick s) = none →
      env.fails (t ++ [⟨.isVisible s 2000, none⟩, ⟨.elementClick s, none⟩])
        .waitForNavigation = some msg →
      BookingScan env rest
        (t ++ [⟨.isVisible s 2000, none⟩, ⟨.elementClick s, none⟩,
          ⟨.waitForNavigation, some msg⟩]) es →
      BookingScan env (s :: rest) t
        (⟨.isVisible s 2000, none⟩ :: ⟨.elementClick s, none⟩ ::
          ⟨.waitForNavigation, some msg⟩ :: es)
  | clicked {s : String} {rest : List String} {t : List Event} :
      VisibleAt env s t →
      env.fails (t ++ [⟨.isVisible s 2000, none⟩]) (.elementClick s) = none →
      env.fails (t ++ [⟨.isVisible s 2000, none⟩, ⟨.elementClick s, none⟩])
        .waitForNavigation = none →
      BookingScan env (s :: rest) t
        [⟨.isVisible s 2000, none⟩, ⟨.elementClick s, none⟩, ⟨.waitForNavigation, none⟩]

/-- Number of clicks on a located element (`element.click()`) in a trace. -/
def elementClicks (t : List Event) : Nat :=
  t.countP (fun e => match e.op with | .elementClick _ => true | _ => false)

/-- The field `name` is present with a trimmed length of at least `n`. -/
def LongEnough (formData : String → Option String) (name : String) (n : Nat) : Prop :=
  ∃ v, formData name = some v ∧ n ≤ jsLength (trim v)

/-- The contact, with all whitespace removed, is `09` or `+639` followed by
exactly nine decimal digits. -/
def ContactOk (formData : String → Option String) : Prop :=
  ∃ v ds, formData "contact" = some v ∧
    ((removeWhitespace v).data = '0' :: '9' :: ds ∨
      (removeWhitespace v).data = '+' :: '6' :: '3' :: '9' :: ds) ∧
    ds.length = 9 ∧ ∀ d ∈ ds, d.isDigit = true

/-! ## Sample inputs -/

/-- An environment with the status webhook configured. -/
def sampleEnvVars : ProcessEnv :=
  ⟨none, none, none, none, none, none, some "https://script.example/exec"⟩

/-- The order of the end-to-end scenario. -/
def sampleOrder : OrderData :=
  ⟨some "ORD1", some "Juan Dela Cruz", some "09171234567", some "123 Rizal St, Manila",
    none, none, none, none⟩

/-- A portal on which nothing throws and nothing is ever visible, so the login
verification is never observed. -/
def loginNeverVerified : Behaviour where
  fails := fun _ _ => none
  visible := fun _ _ => false
  text := fun _ _ => none
  now := fun _ => 1700000000123
  random := fun _ => ⟨1, 1, by decide, by decide, by decide⟩

/-- A portal that cannot be reached, with a browser whose `close` throws. -/
def portalDownCloseThrows : Behaviour where
  fails := fun _ op =>
    match op with
    | .goto _ => some "net::ERR_CONNECTION_REFUSED"
    | .close _ => some "Target closed"
    | _ => none
  visible := fun _ _ => false
  text := fun _ _ => none
  now := fun _ => 1700000000123
  random := fun _ => ⟨1, 1, by decide, by decide, by decide⟩

/-- A machine on which only the first browser launch succeeds, and a portal
that cannot be reached. -/
def onlyFirstLaunchWorks : Behaviour where
  fails := fun t op =>
    match op with
    | .launch => if launched t = 0 then none else some "Failed to launch chromium"
    | .goto _ => some "net::ERR_CONNECTION_REFUSED"
    | _ => none
  visible := fun _ _ => false
  text := fun _ _ => none
  now := fun _ => 1700000000123
  random := fun _ => ⟨1, 1, by decide, by decide, by decide⟩

/-- A portal on which every step succeeds and the confirmation shows the
tracking number `JT20240001`. -/
def portalConfirms : Behaviour where
  fails := fun _ _ => none
  visible := fun _ _ => true
  text := fun _ _ => some "Tracking number: JT20240001"
  now := fun _ => 1700000000123
  random := fun _ => ⟨1, 1, by decide, by decide, by decide⟩

/-- The same portal, with a browser whose first `close` call throws. -/
def firstCloseThrows : Behaviour where
  fails := fun t op =>
    match op with
    | .close _ => if closeCalls t = 0 then some "Target closed" else none
    | _ => none
  visible := fun _ _ => true
  text := fun _ _ => some "Tracking number: JT20240001"
  now := fun _ => 1700000000123
  random := fun _ => ⟨1, 1, by decide, by decide, by decide⟩

/-- The same portal, with a status webhook that cannot be reached. -/
def webhookDown : Behaviour where
  fails := fun _ op =>
    match op with
    | .fetch _ _ _ _ => some "fetch failed"
    | _ => none
  visible := fun _ _ => true
  text := fun _ _ => some "Tracking number: JT20240001"
  now := fun _ => 1700000000123
  random := fun _ => ⟨1, 1, by decide, by decide, by decide⟩

/-- An order without a customer name. -/
def orderWithoutName : OrderData :=
  ⟨some "ORD1", none, some "09171234567", some "123 Rizal St, Manila", none, none, none, none⟩

/-- A required field that is missing or empty. -/
def Missing (field : Option String) : Prop :=
  field = none ∨ field = some ""

/-- An order whose package size is the string `constructor`. -/
def orderSizedConstructor : OrderData :=
  ⟨some "ORD1", some "Juan Dela Cruz", some "09171234567", some "123 Rizal St, Manila",
    none, some "constructor", none, none⟩

/-- A form whose fields can only be found by class, so that for every field
of the sender and receiver sections only the third candidate matches; its
selection lists can only be found by id. -/
def onlyClassSelectors : Behaviour where
  fails := fun _ op =>
    match op with
    | .fill selector _ =>
      if includes selector "class" then none else some "Timeout 30000ms exceeded"
    | .selectOption selector _ =>
      if includes selector "[id" then none else some "Timeout 30000ms exceeded"
    | _ => none
  visible := fun _ _ => true
  text := fun _ _ => none
  now := fun _ => 1700000000123
  random := fun _ => ⟨1, 1, by decide, by decide, by decide⟩

/-- A confirmation page that shows `JT20240001` everywhere, on which the settle
wait throws. -/
def settleWaitThrows : Behaviour where
  fails := fun _ op =>
    match op with
    | .waitForTimeout _ => some "Target closed"
    | _ => none
  visible := fun _ _ => true
  text := fun _ _ => some "Tracking number: JT20240001"
  now := fun _ => 1700000000123
  random := fun _ => ⟨1, 1, by decide, by decide, by decide⟩

/-- A confirmation page on which only the element with class `tracking-number`
shows a tracking number; the pattern candidate is not visible and the labelled
text holds no number. -/
def trackingInThirdCandidate : Behaviour where
  fails := fun _ _ => none
  visible := fun _ selector => selector != "text=/JT[0-9]+/"
  text := fun _ selector =>
    if selector = "text=/tracking.*number/i" then some "Your tracking number"
    else some "Ref 7 JT20240001 (JT99)"
  now := fun _ => 1700000000123
  random := fun _ => ⟨1, 1, by decide, by decide, by decide⟩

/-- A confirmation page without any tracking element, at a time whose
millisecond clock reads 1700000000123, with the random draw 11/256. -/
def nothingToExtract : Behaviour where
  fails := fun _ _ => none
  visible := fun _ _ => false
  text := fun _ _ => none
  now := fun _ => 1700000000123
  random := fun _ => ⟨11, 8, by decide, by decide, by decide⟩

/-- A form without any submit control, on a page whose navigation wait
resolves all the same. -/
def nothingToClick : Behaviour where
  fails := fun _ op =>
    match op with
    | .click _ => some "Timeout 30000ms exceeded"
    | _ => none
  visible := fun _ _ => true
  text := fun _ _ => none
  now := fun _ => 1700000000123
  random := fun _ => ⟨1, 1, by decide, by decide, by decide⟩

/-- A form without any submit control, on a page whose navigation wait times
out. -/
def nothingToClickNoNavigation : Behaviour where
  fails := fun _ op =>
    match op with
    | .click _ => some "Timeout 30000ms exceeded"
    | .waitForNavigation => some "Timeout 30000ms exceeded"
    | _ => none
  visible := fun _ _ => true
  text := fun _ _ => none
  now := fun _ => 1700000000123
  random := fun _ => ⟨1, 1, by decide, by decide, by decide⟩

/-- A portal on which every step succeeds but whose confirmation page shows no
text at all, at clock 1700000000123 with the random draw 11/256. -/
def confirmationWithoutNumber : Behaviour where
  fails := fun _ _ => none
  visible := fun _ _ => true
  text := fun _ _ => none
  now := fun _ => 1700000000123
  random := fun _ => ⟨11, 8, by decide, by decide, by decide⟩

/-- A page on which every fill, select and check interaction throws. -/
def nothingToFill : Behaviour where
  fails := fun _ op =>
    match op with
    | .fill _ _ => some "Timeout 30000ms exceeded"
    | .selectOption _ _ => some "Timeout 30000ms exceeded"
    | .check _ => some "Timeout 30000ms exceeded"
    | _ => none
  visible := fun _ _ => true
  text := fun _ _ => none
  now := fun _ => 1700000000123
  random := fun _ => ⟨1, 1, by decide, by decide, by decide⟩

/-- A dashboard on which every booking candidate is visible and can be
clicked, but on which the navigation wait always times out. -/
def navigationNeverSettles : Behaviour where
  fails := fun _ op =>
    match op with
    | .waitForNavigation => some "Timeout 30000ms exceeded"
    | _ => none
  visible := fun _ _ => true
  text := fun _ _ => none
  now := fun _ => 1700000000123
  random := fun _ => ⟨1, 1, by decide, by decide, by decide⟩

/-- A dashboard whose only booking candidate is the button of class
`booking-btn`; the booking form is recognised afterwards. -/
def onlyBookingButton : Behaviour where
  fails := fun _ _ => none
  visible := fun _ selector =>
    selector = ".booking-btn" || selector = "text=/sender|receiver|package|booking/i"
  text := fun _ _ => none
  now := fun _ => 1700000000123
  random := fun _ => ⟨1, 1, by decide, by decide, by decide⟩

/-- The order form of the end-to-end scenario, with a spaced contact number. -/
def sampleForm (name : String) : Option String :=
  if name = "customerName" then some "  Juan Dela Cruz "
  else if name = "contact" then some "0917 123 4567"
  else if name = "address" then some "123 Rizal St, Manila"
  else none

/-- A form with a one-letter name, a landline number and no address. -/
def badForm (name : String) : Option String :=
  if name = "customerName" then some " J "
  else if name = "contact" then some "02 8123 4567"
  else none

/-- A confirmation page without any tracking element, at clock 1700000000123,
with the draw that is the double nearest to 0.999 (it lies below 0.999, and
its double product with 1000 is 999). -/
def drawJustBelow999 : Behaviour where
  fails := fun _ _ => none
  visible := fun _ _ => false
  text := fun _ _ => none
  now := fun _ => 1700000000123
  random := fun _ => ⟨8998192055486251, 53, by decide, by decide, by decide⟩

/-- A dashboard on which every booking candidate is visible, and on which the
click on the first candidate throws. -/
def firstClickThrows : Behaviour where
  fails := fun _ op =>
    match op with
    | .elementClick selector =>
      if selector = "text=/create.*shipment/i" then some "Element is not attached" else none
    | _ => none
  visible := fun _ _ => true
  text := fun _ _ => none
  now := fun _ => 1700000000123
  random := fun _ => ⟨1, 1, by decide, by decide, by decide⟩

/-! # Theorems -/

/-! ## Running computations -/

theorem pure_run {α : Type} (a : α) (env : Behaviour) (t : List Event) :
    (pure a : M α) env t = (.ok a, t) := rfl

theorem bind_run {α β : Type} (m : M α) (f : α → M β) (env : Behaviour) (t : List Event) :
    (m >>= f) env t =
      match m env t with
      | (.ok a, t1) => f a env t1
      | (.error msg, t1) => (.error msg, t1) := rfl

theorem bind_ok {α β : Type} {m : M α} {f : α → M β} {env : Behaviour} {t t1 : List Event}
    {a : α} (h : m env t = (.ok a, t1)) : (m >>= f) env t = f a env t1 := by
  rw [bind_run, h]

theorem bind_error {α β : Type} {m : M α} {f : α → M β} {env : Behaviour} {t t1 : List Event}
    {msg : String} (h : m env t = (.error msg, t1)) : (m >>= f) env t = (.error msg, t1) := by
  rw [bind_run, h]

theorem tryCatch_ok {α : Type} {body : M α} {handler : String → M α} {env : Behaviour}
    {t t1 : List Event} {a : α} (h : body env t = (.ok a, t1)) :
    tryCatch body handler env t = (.ok a, t1) := by
  unfold tryCatch; rw [h]

theorem tryCatch_error {α : Type} {body : M α} {handler : String → M α} {env : Behaviour}
    {t t1 : List Event} {msg : String} (h : body env t = (.error msg, t1)) :
    tryCatch body handler env t = handler msg env t1 := by
  unfold tryCatch; rw [h]

/-- Every outcome is a return or a throw. -/
theorem run_cases {α : Type} (m : M α) (env : Behaviour) (t : List Event) :
    (∃ a t1, m env t = (.ok a, t1)) ∨ (∃ msg t1, m env t = (.error msg, t1)) := by
  rcases h : m env t with ⟨r, t1⟩
  cases r with
  | ok a => exact Or.inl ⟨a, t1, rfl⟩
  | error msg => exact Or.inr ⟨msg, t1, rfl⟩

/-! ## What a computation adds to the trace -/

theorem emits_pure {α : Type} (P : Op → Prop) (a : α) : Emits P (pure a : M α) :=
  fun _ t => ⟨[], by simp [pure_run], by simp⟩

theorem emits_throwNew {α : Type} (P : Op → Prop) (msg : String) :
    Emits P (throwNew msg : M α) :=
  fun _ t => ⟨[], by simp [throwNew], by simp⟩

theorem emits_perform {P : Op → Prop} {op : Op} (h : P op) : Emits P (perform op) := by
  intro env t
  unfold perform
  cases env.fails t op with
  | none => exact ⟨[⟨op, none⟩], rfl, by simpa using h⟩
  | some msg => exact ⟨[⟨op, some msg⟩], rfl, by simpa using h⟩

theorem emits_isVisible {P : Op → Prop} {selector : String} {timeout : Nat}
    (h : P (.isVisible selector timeout)) : Emits P (isVisible selector timeout) := by
  intro env t
  unfold isVisible
  cases env.fails t (.isVisible selector timeout) with
  | none => exact ⟨[⟨_, none⟩], rfl, by simpa using h⟩
  | some msg => exact ⟨[⟨_, some msg⟩], rfl, by simpa using h⟩

theorem emits_textContent {P : Op → Prop} {selector : String}
    (h : P (.textContent selector)) : Emits P (textContent selector) := by
  intro env t
  unfold textContent
  cases env.fails t (.textContent selector) with
  | none => exact ⟨[⟨_, none⟩], rfl, by simpa using h⟩
  | some msg => exact ⟨[⟨_, some msg⟩], rfl, by simpa using h⟩

theorem emits_dateNow (P : Op → Prop) : Emits P dateNow :=
  fun _ t => ⟨[], by simp [dateNow], by simp⟩

theorem emits_mathRandom (P : Op → Prop) : Emits P mathRandom :=
  fun _ t => ⟨[], by simp [mathRandom], by simp⟩

theorem emits_bind {α β : Type} {P : Op → Prop} {m : M α} {f : α → M β}
    (hm : Emits P m) (hf : ∀ a, Emits P (f a)) : Emits P (m >>= f) := by
  intro env t
  obtain ⟨es, h1, h2⟩ := hm env t
  rcases run_cases m env t with ⟨a, t1, h⟩ | ⟨msg, t1, h⟩
  · rw [bind_ok h]
    rw [h] at h1
    obtain ⟨es2, h3, h4⟩ := hf a env t1
    refine ⟨es ++ es2, ?_, ?_⟩
    · rw [h3]; simp only at h1; rw [h1, List.append_assoc]
    · intro e he
      rcases List.mem_append.mp he with he | he
      · exact h2 e he
      · exact h4 e he
  · rw [bind_error h]
    rw [h] at h1
    exact ⟨es, h1, h2⟩

theorem emits_tryCatch {α : Type} {P : Op → Prop} {body : M α} {handler : String → M α}
    (hb : Emits P body) (hh : ∀ msg, Emits P (handler msg)) : Emits P (tryCatch body handler) := by
  intro env t
  obtain ⟨es, h1, h2⟩ := hb env t
  rcases run_cases body env t with ⟨a, t1, h⟩ | ⟨msg, t1, h⟩
  · rw [tryCatch_ok h]
    rw [h] at h1
    exact ⟨es, h1, h2⟩
  · rw [tryCatch_error h]
    rw [h] at h1
    obtain ⟨es2, h3, h4⟩ := hh msg env t1
    refine ⟨es ++ es2, ?_, ?_⟩
    · rw [h3]; simp only at h1; rw [h1, List.append_assoc]
    · intro e he
      rcases List.mem_append.mp he with he | he
      · exact h2 e he
      · exact h4 e he

theorem emits_ite {α : Type} {P : Op → Prop} {c : Prop} [Decidable c] {a b : M α}
    (ha : Emits P a) (hb : Emits P b) : Emits P (if c then a else b) := by
  split
  · exact ha
  · exact hb

theorem emits_tryEach {P : Op → Prop} {act : String → M Unit}
    (h : ∀ selector, Emits P (act selector)) (selectors : List String) :
    Emits P (tryEach act selectors) := by
  induction selectors with
  | nil => exact emits_pure P ()
  | cons selector rest ih => exact emits_tryCatch (h selector) (fun _ => ih)

theorem emits_forEach {α : Type} {P : Op → Prop} {body : α → M Unit}
    (h : ∀ x, Emits P (body x)) (xs : List α) : Emits P (forEach body xs) := by
  induction xs with
  | nil => exact emits_pure P ()
  | cons x rest ih => exact emits_bind (h x) (fun _ => ih)

theorem emits_loginToJT (cfg : Config) : Emits Op.onPage (loginToJT cfg) := by
  unfold loginToJT
  repeat first
    | exact emits_pure _ _
    | exact emits_throwNew _ _
    | exact emits_perform trivial
    | exact emits_isVisible trivial
    | apply emits_tryEach
    | apply emits_tryCatch
    | apply emits_bind
    | apply emits_ite
    | intro _

theorem emits_clickBookingLink (selectors : List String) :
    Emits Op.onPage (clickBookingLink selectors) := by
  induction selectors with
  | nil => exact emits_pure _ ()
  | cons selector rest ih =>
    unfold clickBookingLink
    apply emits_bind
    · repeat first
        | exact emits_pure _ _
        | exact emits_perform trivial
        | exact emits_isVisible trivial
        | apply emits_tryCatch
        | apply emits_bind
        | apply emits_ite
        | intro _
    · intro stop
      cases stop
      · exact ih
      · exact emits_pure _ ()

theorem emits_navigateToBookingForm : Emits Op.onPage navigateToBookingForm := by
  unfold navigateToBookingForm
  repeat first
    | exact emits_pure _ _
    | exact emits_throwNew _ _
    | exact emits_clickBookingLink _
    | exact emits_isVisible trivial
    | apply emits_tryCatch
    | apply emits_bind
    | apply emits_ite
    | intro _

theorem emits_fillOrSelect (value : JsValue) (selector : String) :
    Emits Op.onPage (fillOrSelect value selector) := by
  unfold fillOrSelect
  split
  · exact emits_perform trivial
  · exact emits_perform trivial

theorem emits_checkOrSelect (method selector : String) :
    Emits Op.onPage (checkOrSelect method selector) := by
  unfold checkOrSelect
  split
  · exact emits_perform trivial
  · split
    · exact emits_perform trivial
    · exact emits_pure _ ()

theorem emits_fillBookingForm (cfg : Config) (orderData : OrderData) :
    Emits Op.onPage (fillBookingForm cfg orderData) := by
  unfold fillBookingForm fillSenderInfo fillReceiverInfo fillPackageInfo setPaymentMethod
  repeat first
    | exact emits_pure _ _
    | exact emits_throwNew _ _
    | exact emits_perform trivial
    | exact emits_fillOrSelect _ _
    | exact emits_checkOrSelect _ _
    | apply emits_tryEach
    | apply emits_forEach
    | apply emits_tryCatch
    | apply emits_bind
    | intro _

theorem emits_submitBooking : Emits Op.onPage submitBooking := by
  unfold submitBooking
  repeat first
    | exact emits_pure _ _
    | exact emits_throwNew _ _
    | exact emits_perform trivial
    | apply emits_tryEach
    | apply emits_tryCatch
    | apply emits_bind
    | intro _

theorem emits_generateMockTrackingNumber (P : Op → Prop) :
    Emits P generateMockTrackingNumber := by
  unfold generateMockTrackingNumber
  repeat first
    | exact emits_pure _ _
    | exact emits_dateNow _
    | exact emits_mathRandom _
    | apply emits_bind
    | intro _

theorem emits_probeTracking (selector : String) :
    Emits Op.onPage (probeTracking selector) := by
  unfold probeTracking
  apply emits_tryCatch
  · apply emits_bind (emits_isVisible trivial)
    intro visible
    cases visible
    · exact emits_pure _ _
    · apply emits_bind (emits_textContent trivial)
      intro text
      cases text
      · exact emits_throwNew _ _
      · exact emits_pure _ _
  · intro _
    exact emits_pure _ _

theorem emits_scanTracking (selectors : List String) :
    Emits Op.onPage (scanTracking selectors) := by
  induction selectors with
  | nil => exact emits_pure _ none
  | cons selector rest ih =>
    unfold scanTracking
    apply emits_bind (emits_probeTracking selector)
    intro found
    cases found
    · exact ih
    · exact emits_pure _ _

theorem emits_extractTrackingNumber : Emits Op.onPage extractTrackingNumber := by
  unfold extractTrackingNumber
  apply emits_tryCatch
  · apply emits_bind (emits_perform trivial)
    intro _
    apply emits_bind (emits_scanTracking _)
    intro found
    cases found
    · exact emits_generateMockTrackingNumber _
    · exact emits_pure _ _
  · intro _
    exact emits_generateMockTrackingNumber _

theorem emits_runSteps (cfg : Config) (orderData : OrderData) (browser : Nat) :
    Emits Op.onPage (runSteps cfg orderData browser) := by
  unfold runSteps
  apply emits_bind (emits_perform trivial); intro _
  apply emits_bind (emits_perform trivial); intro _
  apply emits_bind (emits_perform trivial); intro _
  apply emits_bind (emits_perform trivial); intro _
  apply emits_bind (emits_loginToJT _); intro _
  apply emits_bind emits_navigateToBookingForm; intro _
  apply emits_bind (emits_fillBookingForm _ _); intro trackingNumber
  apply emits_bind emits_submitBooking; intro _
  cases trackingNumber with
  | none => exact emits_extractTrackingNumber
  | some tn =>
    apply emits_ite
    · exact emits_pure _ _
    · exact emits_extractTrackingNumber

/-! ## The retry bound -/

theorem emits_mono {α : Type} {P Q : Op → Prop} {m : M α} (h : ∀ op, P op → Q op)
    (hm : Emits P m) : Emits Q m := by
  intro env t
  obtain ⟨es, h1, h2⟩ := hm env t
  exact ⟨es, h1, fun e he => h _ (h2 e he)⟩

theorem launchCalls_append (t es : List Event) :
    launchCalls (t ++ es) = launchCalls t + launchCalls es := by
  simp [launchCalls, List.countP_append]

theorem launchCalls_eq_zero {es : List Event} (h : ∀ e ∈ es, e.op ≠ .launch) :
    launchCalls es = 0 := by
  simp only [launchCalls, List.countP_eq_zero]
  intro e he
  simpa using h e he

/-- The `catch` block when `browser.close()` does not throw: the events it adds
before it throws or retries. -/
theorem onFailure_run {α : Type} (cfg : Config) (browser : Option Nat) (attemptNo : Nat)
    (msg : String) (retry : Nat → M α) (env : Behaviour) (t : List Event)
    (hclose : ∀ t b, env.fails t (.close b) = none) :
    ∃ closing, launchCalls closing = 0 ∧ statusUpdates closing = [] ∧
      onFailure cfg browser attemptNo msg retry env t =
        if attemptNo + 1 ≥ cfg.MAX_RETRIES then
          (.error ("Booking failed after " ++ toString cfg.MAX_RETRIES ++ " attempts: " ++ msg),
            t ++ closing)
        else retry (attemptNo + 1) env (t ++ closing ++ [⟨.sleep cfg.RETRY_DELAY, none⟩]) := by
  cases browser with
  | none =>
    refine ⟨[], rfl, rfl, ?_⟩
    by_cases h : attemptNo + 1 ≥ cfg.MAX_RETRIES
    · simp [onFailure, bind_run, pure_run, h, throwNew]
    · simp [onFailure, bind_run, pure_run, h, sleep]
  | some b =>
    refine ⟨[⟨.close b, none⟩], by simp [launchCalls], by simp [statusUpdates], ?_⟩
    by_cases h : attemptNo + 1 ≥ cfg.MAX_RETRIES
    · simp [onFailure, bind_run, pure_run, h, throwNew, perform, hclose]
    · simp [onFailure, bind_run, pure_run, h, sleep, perform, hclose]

theorem emits_updateOrderStatus (cfg : Config) (orderId : JsValue) (status tn : String) :
    Emits (fun op => op ≠ .launch) (updateOrderStatus cfg orderId status tn) := by
  unfold updateOrderStatus
  apply emits_tryCatch
  · apply emits_bind (emits_perform (by simp)); intro _
    exact emits_perform (by simp)
  · intro _
    exact emits_pure _ _

theorem emits_finish (cfg : Config) (orderData : OrderData) (browser : Nat) (tn : String) :
    Emits (fun op => op ≠ .launch) (finish cfg orderData browser tn) := by
  unfold finish
  apply emits_ite
  · apply emits_bind
    · apply emits_ite
      · exact emits_updateOrderStatus _ _ _ _
      · exact emits_pure _ _
    · intro _
      apply emits_bind (emits_perform (by simp)); intro _
      exact emits_pure _ _
  · exact emits_throwNew _ _

theorem emits_session (cfg : Config) (orderData : OrderData) (browser : Nat) :
    Emits (fun op => op ≠ .launch) (session cfg orderData browser) := by
  unfold session
  apply emits_bind
  · apply emits_mono _ (emits_runSteps cfg orderData browser)
    intro op h
    cases op <;> simp_all [Op.onPage]
  · intro tn
    exact emits_finish _ _ _ _

theorem chromiumLaunch_trace (env : Behaviour) (t : List Event) :
    ∃ e, (chromiumLaunch env t).2 = t ++ [e] ∧ e.op = .launch := by
  unfold chromiumLaunch
  cases env.fails t .launch with
  | none => exact ⟨_, rfl, rfl⟩
  | some msg => exact ⟨_, rfl, rfl⟩

theorem attempt_of_launch_ok {cfg : Config} {orderData : OrderData} {env : Behaviour}
    {t t1 : List Event} {b : Nat} (h : chromiumLaunch env t = (.ok b, t1)) :
    attempt cfg orderData env t = session cfg orderData b env t1 := by
  unfold attempt
  exact bind_ok h

theorem attempt_of_launch_error {cfg : Config} {orderData : OrderData} {env : Behaviour}
    {t t1 : List Event} {msg : String} (h : chromiumLaunch env t = (.error msg, t1)) :
    attempt cfg orderData env t = (.error msg, t1) := by
  unfold attempt
  exact bind_error h

/-- One attempt adds exactly one `chromium.launch` call to the trace. -/
theorem attempt_launchCalls (cfg : Config) (orderData : OrderData) (env : Behaviour)
    (t : List Event) :
    ∃ es, (attempt cfg orderData env t).2 = t ++ es ∧ launchCalls es = 1 := by
  obtain ⟨e, he, hop⟩ := chromiumLaunch_trace env t
  rcases run_cases chromiumLaunch env t with ⟨b, t1, hl⟩ | ⟨m, t1, hl⟩
  · rw [attempt_of_launch_ok hl]
    rw [hl] at he
    simp only at he
    obtain ⟨es, h1, h2⟩ := emits_session cfg orderData b env t1
    refine ⟨e :: es, ?_, ?_⟩
    · rw [h1, he]; simp
    · have := launchCalls_eq_zero h2
      have h3 : launchCalls (e :: es) = launchCalls [e] + launchCalls es :=
        launchCalls_append [e] es
      rw [h3, this]
      simp [launchCalls, hop]
  · rw [attempt_of_launch_error hl]
    rw [hl] at he
    simp only at he
    exact ⟨[e], he, by simp [launchCalls, hop]⟩

/-- The loop, entered with `fuel` iterations left and `browser.close()` never
throwing: it returns the result of an attempt, or every remaining attempt
failed, each launched once, and the error names the last failure. -/
theorem bookLoop_outcome (cfg : Config) (orderData : OrderData) (env : Behaviour)
    (hclose : ∀ t b, env.fails t (.close b) = none) :
    ∀ (fuel attemptNo : Nat) (browser : Option Nat) (t : List Event),
      attemptNo + fuel = cfg.MAX_RETRIES → 0 < fuel →
      (∃ r es0 t1, attempt cfg orderData env (t ++ es0) = (.ok r, t1) ∧
        bookLoop cfg orderData fuel attemptNo browser env t = (.ok (some r), t1)) ∨
      (∃ msg es0 es1 tail,
        bookLoop cfg orderData fuel attemptNo browser env t =
          (.error ("Booking failed after " ++ toString cfg.MAX_RETRIES ++ " attempts: " ++ msg),
            t ++ es0 ++ es1 ++ tail) ∧
        attempt cfg orderData env (t ++ es0) = (.error msg, t ++ es0 ++ es1) ∧
        launchCalls es0 + 1 = fuel ∧ launchCalls es1 = 1 ∧ launchCalls tail = 0) := by
  intro fuel
  induction fuel with
  | zero => intro _ _ _ _ h; omega
  | succ n ih =>
    intro attemptNo browser t hsum _
    have ha : attemptNo < cfg.MAX_RETRIES := by omega
    obtain ⟨es, hes, hcount⟩ := attempt_launchCalls cfg orderData env t
    have key : ∀ (br : Option Nat) (msg : String),
        attempt cfg orderData env t = (.error msg, t ++ es) →
        (∃ r es0 t1, attempt cfg orderData env (t ++ es0) = (.ok r, t1) ∧
          onFailure cfg br attemptNo msg
            (fun k => bookLoop cfg orderData n k br) env (t ++ es) = (.ok (some r), t1)) ∨
        (∃ msg1 es0 es1 tail,
          onFailure cfg br attemptNo msg
            (fun k => bookLoop cfg orderData n k br) env (t ++ es) =
            (.error ("Booking failed after " ++ toString cfg.MAX_RETRIES ++ " attempts: " ++ msg1),
              t ++ es0 ++ es1 ++ tail) ∧
          attempt cfg orderData env (t ++ es0) = (.error msg1, t ++ es0 ++ es1) ∧
          launchCalls es0 + 1 = n + 1 ∧ launchCalls es1 = 1 ∧ launchCalls tail = 0) := by
      intro br msg hatt
      obtain ⟨closing, hc0, _, hrun⟩ :=
        onFailure_run cfg br attemptNo msg (fun k => bookLoop cfg orderData n k br) env
          (t ++ es) hclose
      rw [hrun]
      by_cases hlast : attemptNo + 1 ≥ cfg.MAX_RETRIES
      · rw [if_pos hlast]
        refine Or.inr ⟨msg, [], es, closing, by simp, by simpa using hatt, ?_, hcount, hc0⟩
        have : n = 0 := by omega
        simp [launchCalls, this]
      · rw [if_neg hlast]
        have hn : 0 < n := by omega
        rcases ih (attemptNo + 1) br (t ++ es ++ closing ++ [⟨.sleep cfg.RETRY_DELAY, none⟩])
            (by omega) hn with ⟨r, es0, t1, h0, h⟩ | ⟨msg1, es0, es1, tail, h1, h2, h3, h4, h5⟩
        · exact Or.inl ⟨r, es ++ closing ++ [⟨.sleep cfg.RETRY_DELAY, none⟩] ++ es0, t1,
            by simpa [List.append_assoc] using h0, h⟩
        · refine Or.inr ⟨msg1, es ++ closing ++ [⟨.sleep cfg.RETRY_DELAY, none⟩] ++ es0, es1,
            tail, ?_, ?_, ?_, h4, h5⟩
          · rw [h1]; simp [List.append_assoc]
          · simpa [List.append_assoc] using h2
          · have hsleep : launchCalls [(⟨.sleep cfg.RETRY_DELAY, none⟩ : Event)] = 0 := by
              simp [launchCalls]
            simp only [launchCalls_append, hcount, hc0, hsleep]
            omega
    unfold bookLoop
    rw [if_pos ha]
    rcases run_cases chromiumLaunch env t with ⟨b, t1, hl⟩ | ⟨m, t1, hl⟩
    · rw [attempt_of_launch_ok hl] at hes
      simp only [hl]
      rcases run_cases (session cfg orderData b) env t1 with ⟨r, t2, hs⟩ | ⟨m, t2, hs⟩
      · simp only [hs]
        exact Or.inl ⟨r, [], t2, by rw [List.append_nil, attempt_of_launch_ok hl, hs], rfl⟩
      · simp only [hs] at hes ⊢
        subst hes
        exact key (some b) m (by rw [attempt_of_launch_ok hl, hs])
    · rw [attempt_of_launch_error hl] at hes
      simp only [hl] at hes ⊢
      subst hes
      exact key browser m (attempt_of_launch_error hl)


theorem aggregate_message (penv : ProcessEnv) (msg : String) :
    "Booking failed after " ++ toString (CONFIG penv).MAX_RETRIES ++ " attempts: " ++ msg =
      "Booking failed after 3 attempts: " ++ msg := by
  apply String.ext
  simp [CONFIG]
  rfl

/-- C1, as amended: when no `browser.close()` call throws and every attempt made
during the call fails, `bookJTExpress` makes exactly 3 `chromium.launch` calls
(the third one starts the last attempt, and nothing is launched after it) and
throws `Booking failed after 3 attempts: ` followed by the message of the last
attempt's failure. -/
theorem bookJTExpress_retry_bound (penv : ProcessEnv) (orderData : OrderData)
    (env : Behaviour) (t : List Event)
    (hclose : ∀ t1 b, env.fails t1 (.close b) = none)
    (hfail : ∀ es r t1, attempt (CONFIG penv) orderData env (t ++ es) ≠ (.ok r, t1)) :
    ∃ msg es0 es1 tail,
      bookJTExpress (CONFIG penv) orderData env t =
        (.error ("Booking failed after 3 attempts: " ++ msg), t ++ es0 ++ es1 ++ tail) ∧
      attempt (CONFIG penv) orderData env (t ++ es0) = (.error msg, t ++ es0 ++ es1) ∧
      launchCalls es0 = 2 ∧ launchCalls es1 = 1 ∧ launchCalls tail = 0 ∧
      launchCalls (es0 ++ es1 ++ tail) = 3 := by
  rcases bookLoop_outcome (CONFIG penv) orderData env hclose 3 0 none t rfl (by decide) with
    ⟨r, es0, t1, h0, _⟩ | ⟨msg, es0, es1, tail, h1, h2, h3, h4, h5⟩
  · exact absurd h0 (hfail es0 r t1)
  · rw [aggregate_message] at h1
    refine ⟨msg, es0, es1, tail, h1, h2, by omega, h4, h5, ?_⟩
    simp only [launchCalls_append]
    omega

theorem bookJTExpress_retry_bound_witness :
    ∃ msg es0 es1 tail,
      bookJTExpress (CONFIG sampleEnvVars) sampleOrder loginNeverVerified [] =
        (.error ("Booking failed after 3 attempts: " ++ msg), [] ++ es0 ++ es1 ++ tail) ∧
      attempt (CONFIG sampleEnvVars) sampleOrder loginNeverVerified ([] ++ es0) =
        (.error msg, [] ++ es0 ++ es1) ∧
      launchCalls es0 = 2 ∧ launchCalls es1 = 1 ∧ launchCalls tail = 0 ∧
      launchCalls (es0 ++ es1 ++ tail) = 3 :=
  bookJTExpress_retry_bound sampleEnvVars sampleOrder loginNeverVerified []
    (fun _ _ => rfl)
    (by
      intro es r t1
      simp [attempt, session, runSteps, loginToJT, tryEach, bind_run, tryCatch, perform,
        chromiumLaunch, isVisible, throwNew, loginNeverVerified])

/-- C1 as stated fails when `browser.close()` throws in the `catch` block: the
only attempt fails (the portal cannot be reached), the close error escapes the
call, one browser was launched and the message is not the aggregate one. -/
theorem bookJTExpress_retry_bound_counterexample :
    (∀ es r t1, attempt (CONFIG sampleEnvVars) sampleOrder portalDownCloseThrows es ≠ (.ok r, t1)) ∧
    bookJTExpress (CONFIG sampleEnvVars) sampleOrder portalDownCloseThrows [] =
      (.error "Target closed",
        [⟨.launch, none⟩, ⟨.newContext 0, none⟩, ⟨.newPage 0, none⟩,
         ⟨.setDefaultTimeout 30000, none⟩,
         ⟨.goto "https://portal.jtexpress.ph", some "net::ERR_CONNECTION_REFUSED"⟩,
         ⟨.close 0, some "Target closed"⟩]) ∧
    launchCalls (bookJTExpress (CONFIG sampleEnvVars) sampleOrder portalDownCloseThrows []).2 = 1 := by
  refine ⟨?_, by decide, by decide⟩
  intro es r t1
  simp [attempt, session, runSteps, bind_run, perform, chromiumLaunch, portalDownCloseThrows,
    CONFIG]

/-! ## Session balance -/

/-- C2 fails on the code: the variable `browser` keeps the handle of the first
attempt when a later `chromium.launch` throws, so the `catch` block closes
that browser again.  One browser is launched and `close` is called on it three
times. -/
theorem bookJTExpress_stale_browser_closed_again :
    (bookJTExpress (CONFIG sampleEnvVars) sampleOrder onlyFirstLaunchWorks []).1 =
      .error "Booking failed after 3 attempts: Failed to launch chromium" ∧
    launched (bookJTExpress (CONFIG sampleEnvVars) sampleOrder onlyFirstLaunchWorks []).2 = 1 ∧
    closeCalls (bookJTExpress (CONFIG sampleEnvVars) sampleOrder onlyFirstLaunchWorks []).2 = 3 ∧
    closesOf 0 (bookJTExpress (CONFIG sampleEnvVars) sampleOrder onlyFirstLaunchWorks []).2 = 3 := by
  decide

/-! ## Precondition rejection -/

/-- C3 as stated fails: `bookJTExpress` does not look at the required fields;
given an order without a customer name it launches a browser and books. -/
theorem bookJTExpress_does_not_validate :
    Missing orderWithoutName.customerName ∧
    (bookJTExpress (CONFIG sampleEnvVars) orderWithoutName portalConfirms []).1 =
      .ok (some ⟨true, "JT20240001", "Booking completed successfully"⟩) ∧
    launchCalls (bookJTExpress (CONFIG sampleEnvVars) orderWithoutName portalConfirms []).2 = 1 := by
  refine ⟨Or.inl rfl, by decide, by decide⟩

theorem truthy_of_missing {field : Option String} (h : Missing field) :
    (prop field).truthy = false := by
  rcases h with h | h <;> subst h <;> rfl

/-- C3, as amended: when any of `orderId`, `customerName`, `contact`, `address`
is missing or empty, the handler of `POST /book-jt` answers 400 with
`Missing required fields` without calling `bookJTExpress`: the trace is left as
it was, so no browser is launched and no interaction takes place. -/
theorem bookJtHandler_rejects_missing_fields (cfg : Config) (orderData : OrderData)
    (env : Behaviour) (t : List Event)
    (h : Missing orderData.orderId ∨ Missing orderData.customerName ∨
      Missing orderData.contact ∨ Missing orderData.address) :
    bookJtHandler cfg orderData env t = (.ok (.failure 400 "Missing required fields"), t) := by
  have hc : (!(prop orderData.orderId).truthy || !(prop orderData.customerName).truthy ||
      !(prop orderData.contact).truthy || !(prop orderData.address).truthy) = true := by
    rcases h with h | h | h | h <;> simp [truthy_of_missing h]
  unfold bookJtHandler
  rw [if_pos hc]
  rfl

theorem bookJtHandler_rejects_missing_fields_witness :
    bookJtHandler (CONFIG sampleEnvVars) orderWithoutName portalConfirms [] =
      (.ok (.failure 400 "Missing required fields"), []) :=
  bookJtHandler_rejects_missing_fields (CONFIG sampleEnvVars) orderWithoutName portalConfirms []
    (Or.inr (Or.inl (Or.inl rfl)))

/-! ## The pattern `/JT\d+/` -/

theorem leadingDigits_append_rest (cs : List Char) :
    leadingDigits cs ++ cs.dropWhile Char.isDigit = cs :=
  List.takeWhile_append_dropWhile _ _

theorem leadingDigits_all (cs : List Char) : ∀ d ∈ leadingDigits cs, d.isDigit = true :=
  fun _ hd => List.mem_takeWhile_imp hd

theorem leadingDigits_of_digits {ds post : List Char} (hne : ds ≠ [])
    (hds : ∀ d ∈ ds, d.isDigit = true) : leadingDigits (ds ++ post) ≠ [] := by
  cases ds with
  | nil => exact absurd rfl hne
  | cons d ds =>
    have : d.isDigit = true := hds d (List.mem_cons_self _ _)
    simp [leadingDigits, List.takeWhile_cons, this]

/-- A match that does not start at the first character is a match of the tail. -/
theorem trackingAt_tail {c : Char} {cs pre ds post : List Char}
    (hno : ¬ (c = 'J' ∧ cs.head? = some 'T' ∧ leadingDigits cs.tail ≠ []))
    (h : TrackingAt pre ds post (c :: cs)) :
    ∃ pre1, pre = c :: pre1 ∧ TrackingAt pre1 ds post cs := by
  obtain ⟨heq, hne, hds⟩ := h
  cases pre with
  | nil =>
    exfalso
    simp only [List.nil_append, List.cons_append, List.cons.injEq] at heq
    obtain ⟨hc, hcs⟩ := heq
    apply hno
    subst hcs
    exact ⟨hc, rfl, leadingDigits_of_digits hne hds⟩
  | cons p pre1 =>
    simp only [List.cons_append, List.cons.injEq] at heq
    obtain ⟨hc, hcs⟩ := heq
    subst hc
    exact ⟨pre1, rfl, by simpa using hcs, hne, hds⟩

theorem matchTrackingChars_some {cs m : List Char} (h : matchTrackingChars cs = some m) :
    LeftmostTracking cs m := by
  induction cs with
  | nil => simp [matchTrackingChars] at h
  | cons c cs ih =>
    unfold matchTrackingChars at h
    split at h
    · rename_i hc
      obtain ⟨hJ, hT, hd⟩ := hc
      have hcs : cs = 'T' :: cs.tail := by
        cases cs with
        | nil => simp at hT
        | cons x xs => simp at hT; simp [hT]
      refine ⟨[], leadingDigits cs.tail, cs.tail.dropWhile Char.isDigit, ⟨?_, hd, leadingDigits_all _⟩,
        (Option.some.inj h).symm, ?_, fun _ _ _ _ => Nat.zero_le _⟩
      · rw [List.nil_append, List.cons_append, List.cons_append, leadingDigits_append_rest, ← hcs, hJ]
      · intro d hhead
        have := List.head?_dropWhile_not Char.isDigit cs.tail
        rw [hhead] at this
        simpa using this
    · rename_i hc
      obtain ⟨pre, ds, post, hat, hm, hgreedy, hleft⟩ := ih h
      refine ⟨c :: pre, ds, post, ?_, hm, hgreedy, ?_⟩
      · obtain ⟨heq, hne, hds⟩ := hat
        exact ⟨by rw [heq]; rfl, hne, hds⟩
      · intro pre1 ds1 post1 h1
        obtain ⟨pre2, hp, h2⟩ := trackingAt_tail hc h1
        subst hp
        have := hleft pre2 ds1 post1 h2
        simp only [List.length_cons]
        omega

theorem matchTrackingChars_none {cs : List Char} (h : matchTrackingChars cs = none) :
    ¬ HasTracking cs := by
  induction cs with
  | nil =>
    rintro ⟨pre, ds, post, heq, _, _⟩
    simp at heq
  | cons c cs ih =>
    unfold matchTrackingChars at h
    split at h
    · simp at h
    · rename_i hc
      rintro ⟨pre, ds, post, hat⟩
      obtain ⟨pre1, _, h1⟩ := trackingAt_tail hc hat
      exact ih h ⟨pre1, ds, post, h1⟩

theorem matchTrackingChars_of_hasTracking {cs : List Char} (h : HasTracking cs) :
    ∃ m, matchTrackingChars cs = some m := by
  cases hm : matchTrackingChars cs with
  | none => exact absurd h (matchTrackingChars_none hm)
  | some m => exact ⟨m, rfl⟩

theorem matchTracking_ne_empty {text s : String} (h : matchTracking text = some s) : s ≠ "" := by
  unfold matchTracking at h
  cases hm : matchTrackingChars text.data with
  | none => simp [hm] at h
  | some m =>
    obtain ⟨pre, ds, post, _, hm2, _, _⟩ := matchTrackingChars_some hm
    simp only [hm, Option.map_some', Option.some.injEq] at h
    subst h hm2
    intro hcontra
    have := congrArg String.data hcontra
    simp at this

/-! ## The extractor -/

theorem generateMockTrackingNumber_run (env : Behaviour) (t : List Event) :
    generateMockTrackingNumber env t =
      (.ok ("JT" ++ sliceLast 8 (toString (env.now t)) ++
        padStart (toString ((env.random t).floorTimes 1000)) 3 '0'), t) := rfl

theorem mock_ne_empty (a b : String) : "JT" ++ a ++ b ≠ "" := by
  intro h
  have := congrArg String.data h
  simp at this

/-- One iteration of the candidate loop never throws; when it returns a
tracking number, the candidate was visible and the number is the match in the
text read from it. -/
theorem probeTracking_run (selector : String) (env : Behaviour) (t : List Event) :
    (∃ t1, probeTracking selector env t = (.ok none, t1)) ∨
    (∃ text s, env.fails t (.isVisible selector 2000) = none ∧ env.visible t selector = true ∧
      env.fails (t ++ [⟨.isVisible selector 2000, none⟩]) (.textContent selector) = none ∧
      env.text (t ++ [⟨.isVisible selector 2000, none⟩]) selector = some text ∧
      matchTracking text = some s ∧
      probeTracking selector env t =
        (.ok (some s), t ++ [⟨.isVisible selector 2000, none⟩, ⟨.textContent selector, none⟩])) := by
  unfold probeTracking tryCatch
  rw [bind_run]
  unfold isVisible
  cases hv : env.fails t (.isVisible selector 2000) with
  | some msg => exact Or.inl ⟨_, rfl⟩
  | none =>
    simp only
    cases hvis : env.visible t selector with
    | false => exact Or.inl ⟨_, rfl⟩
    | true =>
      simp only [if_true]
      rw [bind_run]
      unfold textContent
      cases ht : env.fails (t ++ [⟨.isVisible selector 2000, none⟩]) (.textContent selector) with
      | some msg => exact Or.inl ⟨_, rfl⟩
      | none =>
        simp only
        cases htext : env.text (t ++ [⟨.isVisible selector 2000, none⟩]) selector with
        | none => exact Or.inl ⟨_, rfl⟩
        | some text =>
          simp only
          cases hm : matchTracking text with
          | none =>
            refine Or.inl ⟨t ++ [⟨.isVisible selector 2000, none⟩, ⟨.textContent selector, none⟩], ?_⟩
            simp [pure_run]
          | some s =>
            refine Or.inr ⟨text, s, ?_, ?_, ?_, ?_, ?_, ?_⟩ <;>
              first | assumption | trivial | simp [pure_run, hm]

/-- The candidate loop never throws, and a tracking number it returns is not
empty. -/
theorem scanTracking_run (selectors : List String) (env : Behaviour) (t : List Event) :
    (∃ t1, scanTracking selectors env t = (.ok none, t1)) ∨
    (∃ s t1, scanTracking selectors env t = (.ok (some s), t1) ∧ s ≠ "") := by
  induction selectors generalizing t with
  | nil => exact Or.inl ⟨t, rfl⟩
  | cons selector rest ih =>
    unfold scanTracking
    rcases probeTracking_run selector env t with ⟨t1, h⟩ | ⟨text, s, _, _, _, _, hm, h⟩
    · rw [bind_ok h]
      exact ih t1
    · rw [bind_ok h]
      exact Or.inr ⟨s, _, rfl, matchTracking_ne_empty hm⟩

/-- The extractor returns on every behaviour, and what it returns is not empty. -/
theorem extractTrackingNumber_total (env : Behaviour) (t : List Event) :
    ∃ s t1, extractTrackingNumber env t = (.ok s, t1) ∧ s ≠ "" := by
  unfold extractTrackingNumber
  rcases run_cases (perform (.waitForTimeout 3000)) env t with ⟨_, t1, hw⟩ | ⟨msg, t1, hw⟩
  · rcases scanTracking_run trackingSelectors env t1 with ⟨t2, hs⟩ | ⟨s, t2, hs, hne⟩
    · refine ⟨_, t2, ?_, mock_ne_empty (sliceLast 8 (toString (env.now t2)))
        (padStart (toString ((env.random t2).floorTimes 1000)) 3 '0')⟩
      apply tryCatch_ok
      rw [bind_ok hw, bind_ok hs]
      exact generateMockTrackingNumber_run env t2
    · refine ⟨s, t2, ?_, hne⟩
      apply tryCatch_ok
      rw [bind_ok hw, bind_ok hs]
      rfl
  · refine ⟨_, t1, ?_, mock_ne_empty (sliceLast 8 (toString (env.now t1)))
      (padStart (toString ((env.random t1).floorTimes 1000)) 3 '0')⟩
    rw [tryCatch_error (bind_error hw)]
    exact generateMockTrackingNumber_run env t1

/-- C8: whatever the page does (the settle wait throwing, a visibility probe or
a text read throwing, a `null` text), `extractTrackingNumber` does not throw
and returns a non-empty string. -/
theorem extractTrackingNumber_never_fails (env : Behaviour) (t : List Event) :
    ∃ s t1, extractTrackingNumber env t = (.ok s, t1) ∧ s ≠ "" :=
  extractTrackingNumber_total env t

/-! ## The status webhook -/

theorem bind_ok_inv {α β : Type} {m : M α} {f : α → M β} {env : Behaviour}
    {t t2 : List Event} {b : β} (h : (m >>= f) env t = (.ok b, t2)) :
    ∃ a t1, m env t = (.ok a, t1) ∧ f a env t1 = (.ok b, t2) := by
  rcases run_cases m env t with ⟨a, t1, hm⟩ | ⟨msg, t1, hm⟩
  · rw [bind_ok hm] at h
    exact ⟨a, t1, hm, h⟩
  · rw [bind_error hm] at h
    simp at h

theorem statusUpdates_append (t es : List Event) :
    statusUpdates (t ++ es) = statusUpdates t ++ statusUpdates es := by
  simp [statusUpdates, List.filterMap_append]

theorem statusUpdates_eq_nil {es : List Event} (h : ∀ e ∈ es, ∀ u o s n, e.op ≠ .fetch u o s n) :
    statusUpdates es = [] := by
  simp only [statusUpdates, List.filterMap_eq_nil_iff]
  intro e he
  have := h e he
  cases hop : e.op <;> simp_all

theorem statusUpdates_onPage {es : List Event} (h : ∀ e ∈ es, Op.onPage e.op) :
    statusUpdates es = [] := by
  apply statusUpdates_eq_nil
  intro e he u o s n hop
  have := h e he
  rw [hop] at this
  exact this

/-- The webhook call never throws: whatever `fetch` and `response.json()` do,
`updateOrderStatus` returns, having issued exactly one status update. -/
theorem updateOrderStatus_run (cfg : Config) (orderId : JsValue) (status tn : String)
    (env : Behaviour) (t : List Event) :
    ∃ es, updateOrderStatus cfg orderId status tn env t = (.ok (), t ++ es) ∧
      statusUpdates es = [(orderId, status, tn)] ∧ launchCalls es = 0 := by
  unfold updateOrderStatus tryCatch
  rw [bind_run]
  unfold perform
  cases env.fails t (.fetch cfg.APPS_SCRIPT_WEBHOOK orderId status tn) with
  | some msg => exact ⟨[_], rfl, rfl, rfl⟩
  | none =>
    simp only
    cases env.fails (t ++ [⟨.fetch cfg.APPS_SCRIPT_WEBHOOK orderId status tn, none⟩]) .json with
    | some msg =>
      exact ⟨[⟨.fetch cfg.APPS_SCRIPT_WEBHOOK orderId status tn, none⟩, ⟨.json, some msg⟩],
        by simp [pure_run], rfl, rfl⟩
    | none =>
      exact ⟨[⟨.fetch cfg.APPS_SCRIPT_WEBHOOK orderId status tn, none⟩, ⟨.json, none⟩],
        by simp, rfl, rfl⟩

/-- The steps of an attempt that reach the tracking-number check hand it a
non-empty string. -/
theorem runSteps_ne_empty {cfg : Config} {orderData : OrderData} {browser : Nat}
    {env : Behaviour} {t t1 : List Event} {tn : String}
    (h : runSteps cfg orderData browser env t = (.ok tn, t1)) : tn ≠ "" := by
  unfold runSteps at h
  obtain ⟨_, _, _, h⟩ := bind_ok_inv h
  obtain ⟨_, _, _, h⟩ := bind_ok_inv h
  obtain ⟨_, _, _, h⟩ := bind_ok_inv h
  obtain ⟨_, _, _, h⟩ := bind_ok_inv h
  obtain ⟨_, _, _, h⟩ := bind_ok_inv h
  obtain ⟨_, _, _, h⟩ := bind_ok_inv h
  obtain ⟨trackingNumber, _, _, h⟩ := bind_ok_inv h
  obtain ⟨_, t2, _, h⟩ := bind_ok_inv h
  have hextract : ∀ {s : String}, extractTrackingNumber env t2 = (.ok s, t1) → s ≠ "" := by
    intro s hs
    obtain ⟨s1, t3, h1, hne⟩ := extractTrackingNumber_total env t2
    rw [h1] at hs
    simp only [Prod.mk.injEq, Except.ok.injEq] at hs
    rw [← hs.1]
    exact hne
  cases trackingNumber with
  | none => exact hextract h
  | some s =>
    simp only at h
    by_cases hs : (s != "") = true
    · rw [if_pos hs, pure_run] at h
      simp only [Prod.mk.injEq, Except.ok.injEq] at h
      rw [← h.1]
      simpa using hs
    · rw [if_neg hs] at h
      exact hextract h

/-- The end of the `try` block with a webhook configured: once the status
update is done, the outcome depends on `browser.close()` alone. -/
theorem finish_run {cfg : Config} (orderData : OrderData) (browser : Nat) {tn : String}
    (env : Behaviour) (t : List Event) (hhook : cfg.APPS_SCRIPT_WEBHOOK ≠ "") (hne : tn ≠ "") :
    ∃ es, updateOrderStatus cfg (prop orderData.orderId) "Ready to Ship" tn env t =
        (.ok (), t ++ es) ∧
      statusUpdates es = [(prop orderData.orderId, "Ready to Ship", tn)] ∧ launchCalls es = 0 ∧
      (env.fails (t ++ es) (.close browser) = none →
        finish cfg orderData browser tn env t =
          (.ok ⟨true, tn, "Booking completed successfully"⟩,
            t ++ es ++ [⟨.close browser, none⟩])) := by
  obtain ⟨es, hu, hs, hl⟩ := updateOrderStatus_run cfg (prop orderData.orderId) "Ready to Ship" tn env t
  refine ⟨es, hu, hs, hl, ?_⟩
  intro hclose
  unfold finish
  have h1 : (tn != "") = true := by simpa using hne
  have h2 : (cfg.APPS_SCRIPT_WEBHOOK != "") = true := by simpa using hhook
  rw [if_pos h1, if_pos h2, bind_ok hu]
  have h3 : perform (.close browser) env (t ++ es) = (.ok (), t ++ es ++ [⟨.close browser, none⟩]) := by
    unfold perform
    rw [hclose]
  rw [bind_ok h3]
  rfl

theorem finish_close_error {cfg : Config} (orderData : OrderData) (browser : Nat) {tn : String}
    (env : Behaviour) (t es : List Event) (msg : String)
    (hhook : cfg.APPS_SCRIPT_WEBHOOK ≠ "") (hne : tn ≠ "")
    (hu : updateOrderStatus cfg (prop orderData.orderId) "Ready to Ship" tn env t =
      (.ok (), t ++ es))
    (hclose : env.fails (t ++ es) (.close browser) = some msg) :
    finish cfg orderData browser tn env t =
      (.error msg, t ++ es ++ [⟨.close browser, some msg⟩]) := by
  unfold finish
  have h1 : (tn != "") = true := by simpa using hne
  have h2 : (cfg.APPS_SCRIPT_WEBHOOK != "") = true := by simpa using hhook
  rw [if_pos h1, if_pos h2, bind_ok hu]
  have h3 : perform (.close browser) env (t ++ es) =
      (.error msg, t ++ es ++ [⟨.close browser, some msg⟩]) := by
    unfold perform
    rw [hclose]
  rw [bind_error h3]

/-- C5: the status update never throws, whatever `fetch` and `response.json()`
do.  So in an attempt whose steps reached the tracking-number check (with a
webhook configured) the status update returns, and what follows depends on
`browser.close()` alone: when it resolves, `bookJTExpress` returns
`{success: true, trackingNumber, message}` in the same iteration of the retry
loop, with one browser launch and no retry; the attempt can only fail with the
error of `browser.close()` itself, never with one of the webhook. -/
theorem webhook_failure_is_swallowed (penv : ProcessEnv) (orderData : OrderData)
    (env : Behaviour) (t t1 t2 : List Event) (b : Nat) (tn : String)
    (hhook : (CONFIG penv).APPS_SCRIPT_WEBHOOK ≠ "")
    (hlaunch : chromiumLaunch env t = (.ok b, t1))
    (hsteps : runSteps (CONFIG penv) orderData b env t1 = (.ok tn, t2)) :
    (∀ cfg orderId status n env1 t3,
      ∃ es, updateOrderStatus cfg orderId status n env1 t3 = (.ok (), t3 ++ es)) ∧
    ∃ es, updateOrderStatus (CONFIG penv) (prop orderData.orderId) "Ready to Ship" tn env t2 =
        (.ok (), t2 ++ es) ∧
      (env.fails (t2 ++ es) (.close b) = none →
        bookJTExpress (CONFIG penv) orderData env t =
          (.ok (some ⟨true, tn, "Booking completed successfully"⟩),
            t2 ++ es ++ [⟨.close b, none⟩]) ∧
        launchCalls (t2 ++ es ++ [⟨.close b, none⟩]) = launchCalls t + 1) ∧
      (∀ msg, env.fails (t2 ++ es) (.close b) = some msg →
        session (CONFIG penv) orderData b env t1 =
          (.error msg, t2 ++ es ++ [⟨.close b, some msg⟩])) := by
  have hnever : ∀ cfg orderId status n env1 t3,
      ∃ es, updateOrderStatus cfg orderId status n env1 t3 = (.ok (), t3 ++ es) := by
    intro cfg orderId status n env1 t3
    obtain ⟨es, h, _⟩ := updateOrderStatus_run cfg orderId status n env1 t3
    exact ⟨es, h⟩
  obtain ⟨es, hu, _, hl0, hfin⟩ :=
    finish_run orderData b env t2 hhook (runSteps_ne_empty hsteps)
  refine ⟨hnever, es, hu, ?_, ?_⟩
  · intro hclose
    have hsession : session (CONFIG penv) orderData b env t1 =
        (.ok ⟨true, tn, "Booking completed successfully"⟩, t2 ++ es ++ [⟨.close b, none⟩]) := by
      unfold session
      rw [bind_ok hsteps]
      exact hfin hclose
    constructor
    · show bookLoop (CONFIG penv) orderData 3 0 none env t = _
      unfold bookLoop
      rw [if_pos (show 0 < (CONFIG penv).MAX_RETRIES from Nat.succ_pos 2)]
      simp only [hlaunch, hsession]
    · obtain ⟨e, he, hop⟩ := chromiumLaunch_trace env t
      rw [hlaunch] at he
      simp only at he
      obtain ⟨es1, h1, h2⟩ := emits_runSteps (CONFIG penv) orderData b env t1
      rw [hsteps] at h1
      simp only at h1
      have h3 : launchCalls es1 = 0 := by
        apply launchCalls_eq_zero
        intro x hx hl
        have := h2 x hx
        rw [hl] at this
        exact this
      rw [h1, he]
      simp only [launchCalls_append, h3, hl0]
      simp [launchCalls, hop]
  · intro msg hclose
    unfold session
    rw [bind_ok hsteps]
    exact finish_close_error orderData b env t2 es msg hhook (runSteps_ne_empty hsteps) hu hclose

theorem webhook_failure_is_swallowed_witness :
    (∀ cfg orderId status n env1 t3,
      ∃ es, updateOrderStatus cfg orderId status n env1 t3 = (.ok (), t3 ++ es)) ∧
    ∃ es, updateOrderStatus (CONFIG sampleEnvVars) (prop sampleOrder.orderId) "Ready to Ship"
          "JT20240001" webhookDown
          (runSteps (CONFIG sampleEnvVars) sampleOrder 0 webhookDown [⟨.launch, none⟩]).2 =
        (.ok (), (runSteps (CONFIG sampleEnvVars) sampleOrder 0 webhookDown [⟨.launch, none⟩]).2
          ++ es) ∧
      (webhookDown.fails
          ((runSteps (CONFIG sampleEnvVars) sampleOrder 0 webhookDown [⟨.launch, none⟩]).2 ++ es)
          (.close 0) = none →
        bookJTExpress (CONFIG sampleEnvVars) sampleOrder webhookDown [] =
          (.ok (some ⟨true, "JT20240001", "Booking completed successfully"⟩),
            (runSteps (CONFIG sampleEnvVars) sampleOrder 0 webhookDown [⟨.launch, none⟩]).2 ++
              es ++ [⟨.close 0, none⟩]) ∧
        launchCalls
            ((runSteps (CONFIG sampleEnvVars) sampleOrder 0 webhookDown [⟨.launch, none⟩]).2 ++
              es ++ [⟨.close 0, none⟩]) = launchCalls [] + 1) ∧
      (∀ msg, webhookDown.fails
          ((runSteps (CONFIG sampleEnvVars) sampleOrder 0 webhookDown [⟨.launch, none⟩]).2 ++ es)
          (.close 0) = some msg →
        session (CONFIG sampleEnvVars) sampleOrder 0 webhookDown [⟨.launch, none⟩] =
          (.error msg,
            (runSteps (CONFIG sampleEnvVars) sampleOrder 0 webhookDown [⟨.launch, none⟩]).2 ++
              es ++ [⟨.close 0, some msg⟩])) :=
  webhook_failure_is_swallowed sampleEnvVars sampleOrder webhookDown [] [⟨.launch, none⟩]
    (runSteps (CONFIG sampleEnvVars) sampleOrder 0 webhookDown [⟨.launch, none⟩]).2 0 "JT20240001"
    (by decide) (by decide) (by decide)

/-- The booking on a portal whose status webhook cannot be reached: the failed
`fetch` is followed by the close of the browser and the success result. -/
theorem webhook_down_example :
    (bookJTExpress (CONFIG sampleEnvVars) sampleOrder webhookDown []).1 =
      .ok (some ⟨true, "JT20240001", "Booking completed successfully"⟩) ∧
    (bookJTExpress (CONFIG sampleEnvVars) sampleOrder webhookDown []).2.drop 34 =
      [⟨.fetch "https://script.example/exec" (.str "ORD1") "Ready to Ship" "JT20240001",
          some "fetch failed"⟩,
       ⟨.close 0, none⟩] ∧
    launchCalls (bookJTExpress (CONFIG sampleEnvVars) sampleOrder webhookDown []).2 = 1 := by
  decide

/-- With a webhook configured and `browser.close()` never throwing, the part of
an attempt after the launch issues one status update, carrying the tracking
number it returns, when it succeeds, and none when it fails. -/
theorem session_statusUpdates (cfg : Config) (orderData : OrderData) (b : Nat)
    (env : Behaviour) (t : List Event) (hhook : cfg.APPS_SCRIPT_WEBHOOK ≠ "")
    (hclose : ∀ t1 b1, env.fails t1 (.close b1) = none) :
    (∃ r es, session cfg orderData b env t = (.ok r, t ++ es) ∧
      statusUpdates es = [(prop orderData.orderId, "Ready to Ship", r.trackingNumber)]) ∨
    (∃ msg es, session cfg orderData b env t = (.error msg, t ++ es) ∧ statusUpdates es = []) := by
  obtain ⟨es1, h1, h2⟩ := emits_runSteps cfg orderData b env t
  unfold session
  rcases run_cases (runSteps cfg orderData b) env t with ⟨tn, t1, hs⟩ | ⟨msg, t1, hs⟩
  · rw [hs] at h1
    simp only at h1
    subst h1
    obtain ⟨es, _, hst, _, hfin⟩ := finish_run orderData b env (t ++ es1) hhook (runSteps_ne_empty hs)
    refine Or.inl ⟨⟨true, tn, "Booking completed successfully"⟩, es1 ++ es ++ [⟨.close b, none⟩], ?_, ?_⟩
    · rw [bind_ok hs, hfin (hclose _ _)]
      simp [List.append_assoc]
    · simp only [statusUpdates_append, statusUpdates_onPage h2, hst]
      simp [statusUpdates]
  · rw [hs] at h1
    simp only at h1
    subst h1
    exact Or.inr ⟨msg, es1, bind_error hs, statusUpdates_onPage h2⟩

/-- The loop, with a webhook configured and `browser.close()` never throwing:
when it returns a result, one status update was issued since it was entered. -/
theorem bookLoop_statusUpdates (cfg : Config) (orderData : OrderData) (env : Behaviour)
    (hhook : cfg.APPS_SCRIPT_WEBHOOK ≠ "")
    (hclose : ∀ t1 b1, env.fails t1 (.close b1) = none) :
    ∀ (fuel attemptNo : Nat) (browser : Option Nat) (t t1 : List Event) (r : BookingResult),
      bookLoop cfg orderData fuel attemptNo browser env t = (.ok (some r), t1) →
      ∃ es, t1 = t ++ es ∧
        statusUpdates es = [(prop orderData.orderId, "Ready to Ship", r.trackingNumber)] := by
  intro fuel
  induction fuel with
  | zero =>
    intro _ _ t t1 r h
    simp [bookLoop, pure_run] at h
  | succ n ih =>
    intro attemptNo browser t t1 r h
    unfold bookLoop at h
    by_cases ha : attemptNo < cfg.MAX_RETRIES
    · rw [if_pos ha] at h
      obtain ⟨e, he, hop⟩ := chromiumLaunch_trace env t
      have hnil : statusUpdates [e] = [] := by simp [statusUpdates, hop]
      have key : ∀ (br : Option Nat) (msg : String) (es : List Event), statusUpdates es = [] →
          onFailure cfg br attemptNo msg (fun k => bookLoop cfg orderData n k br) env
            (t ++ [e] ++ es) = (.ok (some r), t1) →
          ∃ es1, t1 = t ++ es1 ∧
            statusUpdates es1 = [(prop orderData.orderId, "Ready to Ship", r.trackingNumber)] := by
        intro br msg es hes hrun
        obtain ⟨closing, _, hc, hof⟩ :=
          onFailure_run cfg br attemptNo msg (fun k => bookLoop cfg orderData n k br) env
            (t ++ [e] ++ es) hclose
        rw [hof] at hrun
        by_cases hlast : attemptNo + 1 ≥ cfg.MAX_RETRIES
        · rw [if_pos hlast] at hrun
          simp at hrun
        · rw [if_neg hlast] at hrun
          obtain ⟨es2, ht1, hs2⟩ := ih _ _ _ _ _ hrun
          refine ⟨[e] ++ es ++ closing ++ [⟨.sleep cfg.RETRY_DELAY, none⟩] ++ es2, ?_, ?_⟩
          · rw [ht1]; simp [List.append_assoc]
          · simp only [statusUpdates_append, hnil, hes, hc, hs2]
            simp [statusUpdates]
      rcases run_cases chromiumLaunch env t with ⟨b, t2, hl⟩ | ⟨m, t2, hl⟩
      · rw [hl] at he
        simp only at he
        subst he
        simp only [hl] at h
        rcases session_statusUpdates cfg orderData b env (t ++ [e]) hhook hclose with
          ⟨r1, es, hs, hst⟩ | ⟨msg, es, hs, hst⟩
        · simp only [hs, Prod.mk.injEq, Except.ok.injEq, Option.some.injEq] at h
          obtain ⟨hr, ht⟩ := h
          subst hr ht
          exact ⟨[e] ++ es, by simp [List.append_assoc], by
            simp only [statusUpdates_append, hnil, hst]; rfl⟩
        · simp only [hs] at h
          exact key (some b) msg es hst h
      · rw [hl] at he
        simp only at he
        subst he
        simp only [hl] at h
        exact key browser m [] rfl (by simpa using h)
    · rw [if_neg ha] at h
      simp [pure_run] at h

/-- C4, as amended: with a status webhook configured and no `browser.close()`
call throwing, a call of `bookJTExpress` that returns a result has issued
exactly one `updateOrderStatus` call over all its attempts, carrying the
order's `orderId`, the status `Ready to Ship` and the `trackingNumber` of the
returned result. -/
theorem bookJTExpress_one_status_update (penv : ProcessEnv) (orderData : OrderData)
    (env : Behaviour) (t t1 : List Event) (r : BookingResult)
    (hhook : (CONFIG penv).APPS_SCRIPT_WEBHOOK ≠ "")
    (hclose : ∀ t2 b, env.fails t2 (.close b) = none)
    (hret : bookJTExpress (CONFIG penv) orderData env t = (.ok (some r), t1)) :
    ∃ es, t1 = t ++ es ∧
      statusUpdates es = [(prop orderData.orderId, "Ready to Ship", r.trackingNumber)] :=
  bookLoop_statusUpdates (CONFIG penv) orderData env hhook hclose _ _ _ _ _ _ hret

theorem bookJTExpress_one_status_update_witness :
    ∃ es, (bookJTExpress (CONFIG sampleEnvVars) sampleOrder portalConfirms []).2 = [] ++ es ∧
      statusUpdates es = [(prop sampleOrder.orderId, "Ready to Ship",
        (⟨true, "JT20240001", "Booking completed successfully"⟩ : BookingResult).trackingNumber)] :=
  bookJTExpress_one_status_update sampleEnvVars sampleOrder portalConfirms []
    (bookJTExpress (CONFIG sampleEnvVars) sampleOrder portalConfirms []).2
    ⟨true, "JT20240001", "Booking completed successfully"⟩
    (by decide) (fun _ _ => rfl) (by decide)

/-- C4 as stated fails when `browser.close()` throws after the status update:
the attempt is retried, and the call that finally returns has issued two
status updates. -/
theorem bookJTExpress_two_status_updates :
    (CONFIG sampleEnvVars).APPS_SCRIPT_WEBHOOK ≠ "" ∧
    (bookJTExpress (CONFIG sampleEnvVars) sampleOrder firstCloseThrows []).1 =
      .ok (some ⟨true, "JT20240001", "Booking completed successfully"⟩) ∧
    statusUpdates (bookJTExpress (CONFIG sampleEnvVars) sampleOrder firstCloseThrows []).2 =
      [(.str "ORD1", "Ready to Ship", "JT20240001"), (.str "ORD1", "Ready to Ship", "JT20240001")] := by
  decide

/-! ## Package-size mapping -/

/-- The mapping on the sizes the form offers and on sizes that are not the name
of a property of `Object.prototype`: `Small`, `Medium`, `Large` give `1`, `2`,
`3`; an absent, empty or otherwise unknown size gives `2`. -/
theorem packageSize_code (size : Option String)
    (h : propertyKey (prop size) ∉ objectPrototypeKeys) :
    (packageSizeMap (prop size)).or (.str "2") =
      if size = some "Small" then .str "1"
      else if size = some "Large" then .str "3"
      else .str "2" := by
  cases size with
  | none => rfl
  | some s =>
    simp only [prop, propertyKey] at h
    simp only [packageSizeMap, prop, propertyKey, Option.some.injEq]
    by_cases h1 : s = "Small"
    · subst h1; rfl
    · by_cases h2 : s = "Medium"
      · subst h2; rfl
      · by_cases h3 : s = "Large"
        · subst h3; rfl
        · simp [h1, h2, h3, h, JsValue.or, JsValue.truthy]

/-- C6 fails on the code: for the package size `constructor` the lookup in the
object literal finds the member inherited from `Object.prototype`, which is
truthy, so the default `2` is not used and `fillPackageInfo` hands that member
to the `package_size` field. -/
theorem packageSize_inherited_key_not_defaulted :
    (packageFields orderSizedConstructor).lookup "package_size" =
      some (.inherited "constructor") ∧
    (⟨.fill "input[name*=\"package_size\"]" (.inherited "constructor"), none⟩ : Event) ∈
      (fillPackageInfo orderSizedConstructor portalConfirms []).2 ∧
    (⟨.fill "input[name*=\"package_size\"]" (.str "2"), none⟩ : Event) ∉
      (fillPackageInfo orderSizedConstructor portalConfirms []).2 := by
  decide

/-! ## Selector cascade -/

/-- C7: a cascade over the candidates of a field attempts them in list order,
each at most once: the events it adds are the interactions of the first `k`
candidates; every interaction before the last one threw; either all candidates
were attempted and all threw, or the last attempted interaction succeeded and
nothing after it was attempted.  The cascade itself never throws.  In
particular, when the first two candidates throw and the third succeeds,
exactly the first three are attempted. -/
theorem selector_cascade_short_circuit (mk : String → Op) (act : String → M Unit)
    (hact : ∀ selector, act selector = perform (mk selector)) (env : Behaviour) :
    (∀ (selectors : List String) (t : List Event),
      ∃ k es, k ≤ selectors.length ∧ tryEach act selectors env t = (.ok (), t ++ es) ∧
        es.map Event.op = (selectors.take k).map mk ∧
        ((k = selectors.length ∧ ∀ e ∈ es, e.error ≠ none) ∨
          ∃ init last, es = init ++ [last] ∧ (∀ e ∈ init, e.error ≠ none) ∧
            last.error = none)) ∧
    (∀ (s1 s2 s3 : String) (rest : List String) (t : List Event) (m1 m2 : String),
      env.fails t (mk s1) = some m1 →
      env.fails (t ++ [⟨mk s1, some m1⟩]) (mk s2) = some m2 →
      env.fails (t ++ [⟨mk s1, some m1⟩, ⟨mk s2, some m2⟩]) (mk s3) = none →
      tryEach act (s1 :: s2 :: s3 :: rest) env t =
        (.ok (), t ++ [⟨mk s1, some m1⟩, ⟨mk s2, some m2⟩, ⟨mk s3, none⟩])) := by
  constructor
  · intro selectors
    induction selectors with
    | nil =>
      intro t
      exact ⟨0, [], Nat.le_refl _, by simp [tryEach, pure_run], rfl, Or.inl ⟨rfl, by simp⟩⟩
    | cons s rest ih =>
      intro t
      unfold tryEach tryCatch
      rw [hact]
      unfold perform
      cases hs : env.fails t (mk s) with
      | none =>
        refine ⟨1, [⟨mk s, none⟩], by simp, rfl, by simp, Or.inr ⟨[], ⟨mk s, none⟩, rfl, by simp, rfl⟩⟩
      | some msg =>
        simp only
        obtain ⟨k, es, hk, hrun, hops, hlast⟩ := ih (t ++ [⟨mk s, some msg⟩])
        refine ⟨k + 1, ⟨mk s, some msg⟩ :: es, by simpa using hk, ?_, by simp [hops], ?_⟩
        · rw [hrun]; simp
        · rcases hlast with ⟨hk1, hall⟩ | ⟨init, last, hes, hinit, hl⟩
          · refine Or.inl ⟨by simp [hk1], ?_⟩
            intro e he
            rcases List.mem_cons.mp he with he | he
            · subst he; simp
            · exact hall e he
          · refine Or.inr ⟨⟨mk s, some msg⟩ :: init, last, by simp [hes], ?_, hl⟩
            intro e he
            rcases List.mem_cons.mp he with he | he
            · subst he; simp
            · exact hinit e he
  · intro s1 s2 s3 rest t m1 m2 h1 h2 h3
    simp [tryEach, tryCatch, hact, perform, h1, h2, h3]

theorem fillOrSelect_eq (value : JsValue) (selector : String) :
    fillOrSelect value selector =
      perform (if includes selector "select" then .selectOption selector value
        else .fill selector value) := by
  unfold fillOrSelect
  split <;> rfl

theorem selector_cascade_short_circuit_witness :
    tryEach (fun selector => perform (.fill selector (.str "Juan Dela Cruz")))
        (inputSelectors "receiver_name") onlyClassSelectors [] =
      (.ok (), [] ++
        [⟨.fill "input[name*=\"receiver_name\"]" (.str "Juan Dela Cruz"),
            some "Timeout 30000ms exceeded"⟩,
         ⟨.fill "input[id*=\"receiver_name\"]" (.str "Juan Dela Cruz"),
            some "Timeout 30000ms exceeded"⟩,
         ⟨.fill "input[class*=\"receiver_name\"]" (.str "Juan Dela Cruz"), none⟩]) :=
  (selector_cascade_short_circuit (fun selector => .fill selector (.str "Juan Dela Cruz"))
    (fun selector => perform (.fill selector (.str "Juan Dela Cruz"))) (fun _ => rfl)
    onlyClassSelectors).2
    "input[name*=\"receiver_name\"]" "input[id*=\"receiver_name\"]"
    "input[class*=\"receiver_name\"]"
    ["textarea[name*=\"receiver_name\"]", "textarea[id*=\"receiver_name\"]"] []
    "Timeout 30000ms exceeded" "Timeout 30000ms exceeded" (by decide) (by decide) (by decide)

/-- The cascade of the `package_size` field on a form whose lists are found by
id: the two inputs and the list by name are attempted and fail, the list by id
is used, the text area is not attempted. -/
theorem package_cascade_example :
    (tryEach (fillOrSelect (.str "2")) (packageSelectors "package_size") onlyClassSelectors []).2.map
        Event.op =
      [.fill "input[name*=\"package_size\"]" (.str "2"),
       .fill "input[id*=\"package_size\"]" (.str "2"),
       .selectOption "select[name*=\"package_size\"]" (.str "2"),
       .selectOption "select[id*=\"package_size\"]" (.str "2")] := by
  decide

/-! ## Extraction order -/

theorem probeTracking_of_skipped {env : Behaviour} {selector : String} {t : List Event}
    (h : Skipped env selector t) : ∃ t1, probeTracking selector env t = (.ok none, t1) := by
  rcases probeTracking_run selector env t with hnone | ⟨text, s, h1, h2, h3, h4, hm, _⟩
  · exact hnone
  · exfalso
    rcases h with h | h | h | h
    · exact h h1
    · rw [h2] at h; exact Bool.noConfusion h
    · exact h h3
    · apply h text h4
      unfold matchTracking at hm
      cases hc : matchTrackingChars text.data with
      | none => simp [hc] at hm
      | some m =>
        obtain ⟨pre, ds, post, hat, _⟩ := matchTrackingChars_some hc
        exact ⟨pre, ds, post, hat⟩

theorem probeTracking_of_shows {env : Behaviour} {selector text : String} {t : List Event}
    (h : Shows env selector text t) :
    probeTracking selector env t =
      (.ok (matchTracking text),
        t ++ [⟨.isVisible selector 2000, none⟩, ⟨.textContent selector, none⟩]) := by
  obtain ⟨h1, h2, h3, h4⟩ := h
  simp [probeTracking, tryCatch, bind_run, isVisible, textContent, h1, h2, h3, h4, pure_run]

theorem scanTracking_cons_none {env : Behaviour} {selector : String} {rest : List String}
    {t t1 : List Event} (h : probeTracking selector env t = (.ok none, t1)) :
    scanTracking (selector :: rest) env t = scanTracking rest env t1 := by
  rw [scanTracking, bind_ok h]

theorem scanTracking_cons_some {env : Behaviour} {selector s : String} {rest : List String}
    {t t1 : List Event} (h : probeTracking selector env t = (.ok (some s), t1)) :
    scanTracking (selector :: rest) env t = (.ok (some s), t1) := by
  rw [scanTracking, bind_ok h]
  rfl

theorem scanTracking_skip_leading {env : Behaviour} (skipped rest : List String)
    (h : ∀ s ∈ skipped, ∀ t, Skipped env s t) (t : List Event) :
    ∃ t1, scanTracking (skipped ++ rest) env t = scanTracking rest env t1 := by
  induction skipped generalizing t with
  | nil => exact ⟨t, rfl⟩
  | cons s more ih =>
    obtain ⟨t1, h1⟩ := probeTracking_of_skipped (h s (List.mem_cons_self _ _) t)
    obtain ⟨t2, h2⟩ := ih (fun x hx => h x (List.mem_cons_of_mem _ hx)) t1
    refine ⟨t2, ?_⟩
    rw [List.cons_append, scanTracking_cons_none h1]
    exact h2

/-- C9, as amended: when the settle wait resolves, the candidates before
`selector` in the fixed order are skipped (not visible, throwing, or without a
match in their text) and `selector` is visible with a text that contains a
match of `JT` followed by digits, `extractTrackingNumber` returns the leftmost
such substring of that text. -/
theorem extractTrackingNumber_first_match (env : Behaviour) (t : List Event)
    (skipped rest : List String) (selector text : String)
    (horder : trackingSelectors = skipped ++ selector :: rest)
    (hwait : env.fails t (.waitForTimeout 3000) = none)
    (hskip : ∀ s ∈ skipped, ∀ t1, Skipped env s t1)
    (hshow : ∀ t1, Shows env selector text t1)
    (hmatch : HasTracking text.data) :
    ∃ s t1, extractTrackingNumber env t = (.ok s, t1) ∧ LeftmostTracking text.data s.data := by
  obtain ⟨m, hm⟩ := matchTrackingChars_of_hasTracking hmatch
  have hleft := matchTrackingChars_some hm
  have hw : perform (.waitForTimeout 3000) env t =
      (.ok (), t ++ [⟨.waitForTimeout 3000, none⟩]) := by
    unfold perform
    rw [hwait]
  obtain ⟨t1, h1⟩ := scanTracking_skip_leading skipped (selector :: rest) hskip
    (t ++ [⟨.waitForTimeout 3000, none⟩])
  have h2 : scanTracking (selector :: rest) env t1 =
      (.ok (some ⟨m⟩), t1 ++ [⟨.isVisible selector 2000, none⟩, ⟨.textContent selector, none⟩]) := by
    apply scanTracking_cons_some
    rw [probeTracking_of_shows (hshow t1)]
    simp [matchTracking, hm]
  refine ⟨⟨m⟩, t1 ++ [⟨.isVisible selector 2000, none⟩, ⟨.textContent selector, none⟩], ?_, hleft⟩
  unfold extractTrackingNumber
  apply tryCatch_ok
  rw [bind_ok hw, horder, bind_ok (h1.trans h2)]
  rfl

theorem extractTrackingNumber_first_match_witness :
    ∃ s t1, extractTrackingNumber trackingInThirdCandidate [] = (.ok s, t1) ∧
      LeftmostTracking "Ref 7 JT20240001 (JT99)".data s.data :=
  extractTrackingNumber_first_match trackingInThirdCandidate []
    ["text=/JT[0-9]+/", "text=/tracking.*number/i"]
    ["#tracking-number", "[class*=\"tracking\"]", "[id*=\"tracking\"]"]
    ".tracking-number" "Ref 7 JT20240001 (JT99)" rfl rfl
    (by
      intro s hs t1
      simp only [List.mem_cons, List.mem_singleton, List.not_mem_nil, or_false] at hs
      rcases hs with hs | hs
      · subst hs
        exact Or.inr (Or.inl rfl)
      · subst hs
        refine Or.inr (Or.inr (Or.inr ?_))
        intro text htext
        have : text = "Your tracking number" := by
          simpa [trackingInThirdCandidate] using htext.symm
        subst this
        exact matchTrackingChars_none (by decide))
    (fun _ => ⟨rfl, rfl, rfl, rfl⟩)
    ⟨"Ref 7 ".data, "20240001".data, " (JT99)".data, by decide, by decide, by decide⟩

/-- C9 as stated fails when the settle wait throws: every candidate is visible
and shows `JT20240001`, yet no candidate is probed and the placeholder number
is returned. -/
theorem extractTrackingNumber_wait_throws :
    (∀ selector t, Shows settleWaitThrows selector "Tracking number: JT20240001" t) ∧
    HasTracking "Tracking number: JT20240001".data ∧
    extractTrackingNumber settleWaitThrows [] =
      (.ok "JT00000123500", [⟨.waitForTimeout 3000, some "Target closed"⟩]) := by
  refine ⟨fun _ _ => ⟨rfl, rfl, rfl, rfl⟩, ?_, by decide⟩
  exact ⟨"Tracking number: ".data, "20240001".data, [], by decide, by decide, by decide⟩

/-! ## Decimal digits -/

theorem toDigitsCore_eq (n : Nat) :
    ∀ (fuel : Nat) (ds : List Char), n < fuel →
      Nat.toDigitsCore 10 fuel n ds = Nat.toDigits 10 n ++ ds := by
  induction n using Nat.strong_induction_on with
  | _ n ih =>
    intro fuel ds hfuel
    cases fuel with
    | zero => omega
    | succ f =>
      unfold Nat.toDigits
      rw [Nat.toDigitsCore, Nat.toDigitsCore]
      by_cases h : n / 10 = 0
      · simp [h]
      · simp only [h, if_false]
        have hlt : n / 10 < n := Nat.div_lt_self (by omega) (by decide)
        rw [ih (n / 10) hlt f _ (by omega), ih (n / 10) hlt n _ hlt]
        simp

theorem toDigits_lt_ten {n : Nat} (h : n < 10) : Nat.toDigits 10 n = [Nat.digitChar n] := by
  unfold Nat.toDigits
  rw [Nat.toDigitsCore]
  have h1 : n / 10 = 0 := Nat.div_eq_of_lt h
  have h2 : n % 10 = n := Nat.mod_eq_of_lt h
  simp [h1, h2]

theorem toDigits_snoc {n : Nat} (h : 10 ≤ n) :
    Nat.toDigits 10 n = Nat.toDigits 10 (n / 10) ++ [Nat.digitChar (n % 10)] := by
  have h1 : n / 10 ≠ 0 := by omega
  have hlt : n / 10 < n := Nat.div_lt_self (by omega) (by decide)
  conv => lhs; unfold Nat.toDigits
  rw [Nat.toDigitsCore]
  simp only [h1, if_false]
  exact toDigitsCore_eq (n / 10) n _ hlt

theorem digitChar_isDigit {k : Nat} (h : k < 10) : (Nat.digitChar k).isDigit = true := by
  interval_cases k <;> decide

theorem digitChar_value {k : Nat} (h : k < 10) : (Nat.digitChar k).toNat - 48 = k := by
  interval_cases k <;> decide

theorem decimalValue_snoc (cs : List Char) (c : Char) :
    decimalValue (cs ++ [c]) = 10 * decimalValue cs + (c.toNat - 48) := by
  simp [decimalValue, List.foldl_append]

theorem toDigits_all_digits (n : Nat) : ∀ c ∈ Nat.toDigits 10 n, c.isDigit = true := by
  induction n using Nat.strong_induction_on with
  | _ n ih =>
    by_cases h : n < 10
    · rw [toDigits_lt_ten h]
      intro c hc
      rw [List.mem_singleton.mp hc]
      exact digitChar_isDigit h
    · rw [toDigits_snoc (by omega)]
      intro c hc
      rcases List.mem_append.mp hc with hc | hc
      · exact ih (n / 10) (Nat.div_lt_self (by omega) (by decide)) c hc
      · rw [List.mem_singleton.mp hc]
        exact digitChar_isDigit (Nat.mod_lt _ (by decide))

theorem decimalValue_toDigits (n : Nat) : decimalValue (Nat.toDigits 10 n) = n := by
  induction n using Nat.strong_induction_on with
  | _ n ih =>
    by_cases h : n < 10
    · rw [toDigits_lt_ten h]
      simp [decimalValue, digitChar_value h]
    · rw [toDigits_snoc (by omega), decimalValue_snoc,
        ih (n / 10) (Nat.div_lt_self (by omega) (by decide)),
        digitChar_value (Nat.mod_lt _ (by decide))]
      omega

/-- The last `k + 1` characters of the decimal representation of a number with
at least `k + 1` digits denote the number modulo `10 ^ (k + 1)`. -/
theorem toDigits_last (k : Nat) : ∀ n, 10 ^ k ≤ n →
    k + 1 ≤ (Nat.toDigits 10 n).length ∧
    decimalValue ((Nat.toDigits 10 n).drop ((Nat.toDigits 10 n).length - (k + 1))) =
      n % 10 ^ (k + 1) := by
  induction k with
  | zero =>
    intro n _
    by_cases h : n < 10
    · rw [toDigits_lt_ten h]
      simp [decimalValue, digitChar_value h, Nat.mod_eq_of_lt h]
    · rw [toDigits_snoc (by omega)]
      refine ⟨by simp, ?_⟩
      simp [decimalValue, digitChar_value (Nat.mod_lt n (by decide : 0 < 10))]
  | succ k ih =>
    intro n hn
    have h10 : 10 ≤ n := by
      have : 10 ^ 1 ≤ 10 ^ (k + 1) := Nat.pow_le_pow_right (by decide) (by omega)
      omega
    have hdiv : 10 ^ k ≤ n / 10 := by
      rw [Nat.le_div_iff_mul_le (by decide)]
      rw [Nat.pow_succ] at hn
      exact hn
    obtain ⟨hlen, hval⟩ := ih (n / 10) hdiv
    rw [toDigits_snoc h10]
    refine ⟨by simp; omega, ?_⟩
    have hdrop : (Nat.toDigits 10 (n / 10) ++ [Nat.digitChar (n % 10)]).length - (k + 1 + 1) =
        (Nat.toDigits 10 (n / 10)).length - (k + 1) := by
      simp
    rw [hdrop, List.drop_append_of_le_length (by omega), decimalValue_snoc, hval,
      digitChar_value (Nat.mod_lt _ (by decide))]
    rw [Nat.pow_succ 10 (k + 1), Nat.mul_comm (10 ^ (k + 1)) 10, Nat.mod_mul]
    omega

theorem toDigits_length_le (k : Nat) : ∀ n, n < 10 ^ (k + 1) →
    (Nat.toDigits 10 n).length ≤ k + 1 := by
  induction k with
  | zero =>
    intro n hn
    rw [toDigits_lt_ten (by simpa using hn)]
    simp
  | succ k ih =>
    intro n hn
    by_cases h : n < 10
    · rw [toDigits_lt_ten h]
      simp
    · rw [toDigits_snoc (by omega)]
      have : n / 10 < 10 ^ (k + 1) := by
        rw [Nat.div_lt_iff_lt_mul (by decide)]
        rw [Nat.pow_succ] at hn
        exact hn
      have := ih (n / 10) this
      simp
      omega

theorem decimalValue_zeros (j : Nat) (cs : List Char) :
    decimalValue (List.replicate j '0' ++ cs) = decimalValue cs := by
  induction j with
  | zero => rfl
  | succ j ih =>
    rw [List.replicate_succ, List.cons_append]
    unfold decimalValue at ih ⊢
    rw [List.foldl_cons]
    exact ih

theorem toString_data (n : Nat) : (toString n).data = Nat.toDigits 10 n := rfl

/-! ## The placeholder tracking number -/

theorem excessBits_le (fuel : Nat) : ∀ n k, n < 2 ^ (53 + k) → excessBits fuel n ≤ k := by
  induction fuel with
  | zero => intro n k _; simp [excessBits]
  | succ f ih =>
    intro n k hn
    unfold excessBits
    split
    · exact Nat.zero_le _
    · rename_i hge
      cases k with
      | zero => exact absurd hn hge
      | succ k =>
        have : n / 2 < 2 ^ (53 + k) := by
          rw [Nat.div_lt_iff_lt_mul (by decide)]
          have : 2 ^ (53 + (k + 1)) = 2 ^ (53 + k) * 2 := by
            rw [← Nat.add_assoc, Nat.pow_succ]
          omega
        have := ih (n / 2) k this
        omega

/-- Rounding moves a number up by at most half a unit in the last place. -/
theorem roundToDouble_le (n : Nat) : 2 * roundToDouble n ≤ 2 * n + 2 ^ excessBits n n := by
  unfold roundToDouble
  simp only
  have hdm := Nat.div_add_mod n (2 ^ excessBits n n)
  have hmul : (n / 2 ^ excessBits n n + 1) * 2 ^ excessBits n n =
      2 ^ excessBits n n * (n / 2 ^ excessBits n n) + 2 ^ excessBits n n := by ring
  have hmul2 : n / 2 ^ excessBits n n * 2 ^ excessBits n n =
      2 ^ excessBits n n * (n / 2 ^ excessBits n n) := by ring
  split
  · rename_i h
    rw [hmul]
    rcases h with h | h <;> omega
  · rw [hmul2]
    omega

/-- The double product of a draw below 1 with 1000 stays below 1000, so its
floor is at most 999. -/
theorem floorTimes_thousand_lt (draw : Draw) : draw.floorTimes 1000 < 1000 := by
  unfold Draw.floorTimes
  have hm := draw.precision
  have h1 := draw.below_one
  have hN : draw.mantissa * 1000 < 2 ^ (53 + 10) := by
    have : (2 : Nat) ^ (53 + 10) = 2 ^ 53 * 1024 := by norm_num
    rw [this]
    omega
  have hs := excessBits_le (draw.mantissa * 1000) (draw.mantissa * 1000) 10 hN
  have hp : 2 ^ excessBits (draw.mantissa * 1000) (draw.mantissa * 1000) ≤ 2 ^ 10 :=
    Nat.pow_le_pow_right (by decide) hs
  have hr := roundToDouble_le (draw.mantissa * 1000)
  have hpos : 0 < 2 ^ draw.exponent := by positivity
  rw [Nat.div_lt_iff_lt_mul hpos]
  have h2 : (draw.mantissa + 1) * 1000 ≤ 1000 * 2 ^ draw.exponent := by
    have : draw.mantissa + 1 ≤ 2 ^ draw.exponent := h1
    calc (draw.mantissa + 1) * 1000 ≤ 2 ^ draw.exponent * 1000 := Nat.mul_le_mul_right _ this
      _ = 1000 * 2 ^ draw.exponent := Nat.mul_comm _ _
  have h10 : (2 : Nat) ^ 10 = 1024 := by norm_num
  omega

/-- The placeholder for a clock of at least 8 decimal digits: `JT`, the last 8
digits of the clock, then `Math.floor(random * 1000)` padded to 3 digits. -/
theorem generateMockTrackingNumber_format (env : Behaviour) (t : List Event)
    (hclock : 10 ^ 7 ≤ env.now t) :
    ∃ ds, generateMockTrackingNumber env t = (.ok ⟨'J' :: 'T' :: ds⟩, t) ∧
      ds.length = 11 ∧ (∀ d ∈ ds, d.isDigit = true) ∧
      decimalValue (ds.take 8) = env.now t % 10 ^ 8 ∧
      decimalValue (ds.drop 8) = (env.random t).floorTimes 1000 := by
  obtain ⟨hlen, hval⟩ := toDigits_last 7 (env.now t) hclock
  have hr := floorTimes_thousand_lt (env.random t)
  have hrlen := toDigits_length_le 2 ((env.random t).floorTimes 1000) hr
  have hpos : 0 < (Nat.toDigits 10 ((env.random t).floorTimes 1000)).length := by
    by_cases h : (env.random t).floorTimes 1000 < 10
    · rw [toDigits_lt_ten h]; simp
    · rw [toDigits_snoc (by omega)]; simp
  let stamp := (Nat.toDigits 10 (env.now t)).drop ((Nat.toDigits 10 (env.now t)).length - 8)
  let rnd := List.replicate (3 - (Nat.toDigits 10 ((env.random t).floorTimes 1000)).length) '0' ++
    Nat.toDigits 10 ((env.random t).floorTimes 1000)
  have hstamp : stamp.length = 8 := by
    simp only [stamp, List.length_drop]
    omega
  have hrnd : rnd.length = 3 := by
    simp only [rnd, List.length_append, List.length_replicate]
    omega
  refine ⟨stamp ++ rnd, ?_, ?_, ?_, ?_, ?_⟩
  · rw [generateMockTrackingNumber_run]
    rfl
  · rw [List.length_append, hstamp, hrnd]
  · intro d hd
    rcases List.mem_append.mp hd with hd | hd
    · exact toDigits_all_digits _ d (List.mem_of_mem_drop hd)
    · rcases List.mem_append.mp hd with hd | hd
      · rw [(List.mem_replicate.mp hd).2]
        decide
      · exact toDigits_all_digits _ d hd
  · rw [List.take_left' hstamp]
    exact hval
  · rw [List.drop_left' hstamp]
    simp only [rnd]
    rw [decimalValue_zeros, decimalValue_toDigits]

theorem scanTracking_all_skipped {env : Behaviour} (selectors : List String)
    (h : ∀ s ∈ selectors, ∀ t, Skipped env s t) (t : List Event) :
    ∃ t1, scanTracking selectors env t = (.ok none, t1) := by
  obtain ⟨t1, h1⟩ := scanTracking_skip_leading selectors [] h t
  rw [List.append_nil] at h1
  exact ⟨t1, h1⟩

/-- C10: when no candidate yields a match (each one is skipped, or the settle
wait throws), `extractTrackingNumber` returns what `generateMockTrackingNumber`
returns at that moment, and for a clock of at least 8 decimal digits and every
draw below 1 this is `JT` followed by exactly 11 decimal digits: 8 digits that
denote the clock modulo `10 ^ 8`, then 3 digits that denote
`Math.floor(random * 1000)`, the product being the product of doubles. -/
theorem extractTrackingNumber_placeholder (env : Behaviour) (t : List Event)
    (hskip : ∀ s ∈ trackingSelectors, ∀ t1, Skipped env s t1)
    (hclock : ∀ t1, 10 ^ 7 ≤ env.now t1) :
    ∃ t1 ds, extractTrackingNumber env t = (.ok ⟨'J' :: 'T' :: ds⟩, t1) ∧
      generateMockTrackingNumber env t1 = (.ok ⟨'J' :: 'T' :: ds⟩, t1) ∧
      ds.length = 11 ∧ (∀ d ∈ ds, d.isDigit = true) ∧
      decimalValue (ds.take 8) = env.now t1 % 10 ^ 8 ∧
      decimalValue (ds.drop 8) = (env.random t1).floorTimes 1000 := by
  have hfinal : ∃ t1, extractTrackingNumber env t = generateMockTrackingNumber env t1 := by
    unfold extractTrackingNumber
    rcases run_cases (perform (.waitForTimeout 3000)) env t with ⟨_, t1, hw⟩ | ⟨msg, t1, hw⟩
    · obtain ⟨t2, hs⟩ := scanTracking_all_skipped trackingSelectors hskip t1
      refine ⟨t2, ?_⟩
      have hbody : (do
          perform (.waitForTimeout 3000)
          let found ← scanTracking trackingSelectors
          match found with
          | some trackingNumber => pure trackingNumber
          | none => generateMockTrackingNumber) env t =
          generateMockTrackingNumber env t2 := by
        rw [bind_ok hw, bind_ok hs]
      rw [generateMockTrackingNumber_run] at hbody ⊢
      exact tryCatch_ok hbody
    · exact ⟨t1, tryCatch_error (bind_error hw)⟩
  obtain ⟨t1, h1⟩ := hfinal
  obtain ⟨ds, h2, h3⟩ := generateMockTrackingNumber_format env t1 (hclock t1)
  exact ⟨t1, ds, h1.trans h2, h2, h3⟩

theorem extractTrackingNumber_placeholder_witness :
    ∃ t1 ds, extractTrackingNumber nothingToExtract [] = (.ok ⟨'J' :: 'T' :: ds⟩, t1) ∧
      generateMockTrackingNumber nothingToExtract t1 = (.ok ⟨'J' :: 'T' :: ds⟩, t1) ∧
      ds.length = 11 ∧ (∀ d ∈ ds, d.isDigit = true) ∧
      decimalValue (ds.take 8) = nothingToExtract.now t1 % 10 ^ 8 ∧
      decimalValue (ds.drop 8) = (nothingToExtract.random t1).floorTimes 1000 :=
  extractTrackingNumber_placeholder nothingToExtract []
    (fun _ _ _ => Or.inr (Or.inl rfl))
    (fun _ => show 10 ^ 7 ≤ 1700000000123 by decide)

/-- The placeholder on a page without tracking elements, at clock
1700000000123 with the draw 11/256. -/
theorem extractTrackingNumber_placeholder_example :
    (extractTrackingNumber nothingToExtract []).1 = .ok "JT00000123042" := by
  decide

/-- The placeholder for the double nearest to 0.999: the exact product with
1000 lies below 999, the product of doubles is 999, and 999 is what the last
three digits show. -/
theorem extractTrackingNumber_placeholder_rounding_example :
    8998192055486251 * 1000 / 2 ^ 53 = 998 ∧
    (drawJustBelow999.random []).floorTimes 1000 = 999 ∧
    (extractTrackingNumber drawJustBelow999 []).1 = .ok "JT00000123999" := by
  decide

/-! ## The placeholder and the tracking-number pattern -/

theorem matchTrackingChars_JT_digits {ds : List Char} (hne : ds ≠ [])
    (hds : ∀ d ∈ ds, d.isDigit = true) :
    matchTrackingChars ('J' :: 'T' :: ds) = some ('J' :: 'T' :: ds) := by
  have hlead : leadingDigits ds = ds := by
    unfold leadingDigits
    rw [List.takeWhile_eq_self_iff]
    exact hds
  unfold matchTrackingChars
  simp [hlead, hne]

/-- C11, as amended: every identifier synthesized by
`generateMockTrackingNumber` has the format of a genuine tracking number: it
is `JT` followed by digits only, and the pattern by which
`extractTrackingNumber` recognises a tracking number matches it in full. -/
theorem generateMockTrackingNumber_matches_pattern (env : Behaviour) (t : List Event) :
    ∃ ds, generateMockTrackingNumber env t = (.ok ⟨'J' :: 'T' :: ds⟩, t) ∧
      ds ≠ [] ∧ (∀ d ∈ ds, d.isDigit = true) ∧
      matchTracking ⟨'J' :: 'T' :: ds⟩ = some ⟨'J' :: 'T' :: ds⟩ := by
  let stamp := (Nat.toDigits 10 (env.now t)).drop ((Nat.toDigits 10 (env.now t)).length - 8)
  let rnd := List.replicate (3 - (Nat.toDigits 10 ((env.random t).floorTimes 1000)).length) '0' ++
    Nat.toDigits 10 ((env.random t).floorTimes 1000)
  have hpos : Nat.toDigits 10 ((env.random t).floorTimes 1000) ≠ [] := by
    by_cases h : (env.random t).floorTimes 1000 < 10
    · rw [toDigits_lt_ten h]; simp
    · rw [toDigits_snoc (by omega)]; simp
  have hne : stamp ++ rnd ≠ [] := by
    simp only [rnd, ne_eq, List.append_eq_nil, not_and]
    intro _ _
    exact hpos
  have hds : ∀ d ∈ stamp ++ rnd, d.isDigit = true := by
    intro d hd
    rcases List.mem_append.mp hd with hd | hd
    · exact toDigits_all_digits _ d (List.mem_of_mem_drop hd)
    · rcases List.mem_append.mp hd with hd | hd
      · rw [(List.mem_replicate.mp hd).2]
        decide
      · exact toDigits_all_digits _ d hd
  refine ⟨stamp ++ rnd, ?_, hne, hds, ?_⟩
  · rw [generateMockTrackingNumber_run]
    rfl
  · unfold matchTracking
    rw [matchTrackingChars_JT_digits hne hds]
    rfl

/-- C11 as stated fails: the identifier synthesized at clock 1700000000123 with
the draw 11/256 is `JT00000123042`, which the tracking-number pattern matches
in full. -/
theorem generateMockTrackingNumber_not_distinguishable :
    generateMockTrackingNumber nothingToExtract [] = (.ok "JT00000123042", []) ∧
    matchTracking "JT00000123042" = some "JT00000123042" := by
  decide

/-! ## Submission -/

/-- A cascade whose every interaction throws attempts all its candidates, in
order, and returns. -/
theorem tryEach_all_throw (mk : String → Op) (env : Behaviour)
    (hthrow : ∀ t selector, env.fails t (mk selector) ≠ none) (selectors : List String) :
    ∀ t, ∃ es, tryEach (fun selector => perform (mk selector)) selectors env t = (.ok (), t ++ es) ∧
      es.map Event.op = selectors.map mk ∧ ∀ e ∈ es, e.error ≠ none := by
  induction selectors with
  | nil =>
    intro t
    exact ⟨[], by simp [tryEach, pure_run], rfl, by simp⟩
  | cons s rest ih =>
    intro t
    cases hs : env.fails t (mk s) with
    | none => exact absurd hs (hthrow t s)
    | some msg =>
      have hp : perform (mk s) env t = (.error msg, t ++ [⟨mk s, some msg⟩]) := by
        unfold perform
        rw [hs]
      obtain ⟨es, hrun, hops, herr⟩ := ih (t ++ [⟨mk s, some msg⟩])
      refine ⟨⟨mk s, some msg⟩ :: es, ?_, by simp [hops], ?_⟩
      · rw [tryEach, tryCatch_error hp, hrun]
        simp
      intro e he
      rcases List.mem_cons.mp he with he | he
      · subst he; simp
      · exact herr e he

/-- C12, as amended: when none of the five submit-control candidates can be
clicked, `submitBooking` attempts the five clicks in order and then awaits the
navigation; it fails exactly when that wait throws, with the message
`Booking submission failed: ` followed by the message of the wait, and it
returns normally when the wait resolves. -/
theorem submitBooking_without_click (env : Behaviour) (t : List Event)
    (hclick : ∀ t1 selector, env.fails t1 (.click selector) ≠ none) :
    ∃ es, es.map Event.op = submitSelectors.map Op.click ∧ (∀ e ∈ es, e.error ≠ none) ∧
      (∀ msg, env.fails (t ++ es) .waitForNavigation = some msg →
        submitBooking env t =
          (.error ("Booking submission failed: " ++ msg),
            t ++ es ++ [⟨.waitForNavigation, some msg⟩])) ∧
      (env.fails (t ++ es) .waitForNavigation = none →
        submitBooking env t = (.ok (), t ++ es ++ [⟨.waitForNavigation, none⟩])) := by
  obtain ⟨es, hrun, hops, herr⟩ := tryEach_all_throw Op.click env hclick submitSelectors t
  refine ⟨es, hops, herr, ?_, ?_⟩
  · intro msg hwait
    have hw : perform .waitForNavigation env (t ++ es) =
        (.error msg, t ++ es ++ [⟨.waitForNavigation, some msg⟩]) := by
      unfold perform
      rw [hwait]
    unfold submitBooking
    rw [tryCatch_error (by rw [bind_ok hrun]; exact hw)]
    rfl
  · intro hwait
    have hw : perform .waitForNavigation env (t ++ es) =
        (.ok (), t ++ es ++ [⟨.waitForNavigation, none⟩]) := by
      unfold perform
      rw [hwait]
    unfold submitBooking
    exact tryCatch_ok (by rw [bind_ok hrun]; exact hw)

theorem submitBooking_without_click_witness :
    ∃ es, es.map Event.op = submitSelectors.map Op.click ∧ (∀ e ∈ es, e.error ≠ none) ∧
      (∀ msg, nothingToClickNoNavigation.fails ([] ++ es) .waitForNavigation = some msg →
        submitBooking nothingToClickNoNavigation [] =
          (.error ("Booking submission failed: " ++ msg),
            [] ++ es ++ [⟨.waitForNavigation, some msg⟩])) ∧
      (nothingToClickNoNavigation.fails ([] ++ es) .waitForNavigation = none →
        submitBooking nothingToClickNoNavigation [] =
          (.ok (), [] ++ es ++ [⟨.waitForNavigation, none⟩])) :=
  submitBooking_without_click nothingToClickNoNavigation []
    (fun _ _ => by simp [nothingToClickNoNavigation])

/-- C12 as stated fails: no submit control can be clicked, the navigation wait
resolves, and `submitBooking` returns normally after the five failed clicks. -/
theorem submitBooking_succeeds_without_click :
    (∀ t selector, nothingToClick.fails t (.click selector) ≠ none) ∧
    submitBooking nothingToClick [] =
      (.ok (),
        [⟨.click "button[type=\"submit\"]", some "Timeout 30000ms exceeded"⟩,
         ⟨.click "input[type=\"submit\"]", some "Timeout 30000ms exceeded"⟩,
         ⟨.click ".submit-btn", some "Timeout 30000ms exceeded"⟩,
         ⟨.click "#submit-booking", some "Timeout 30000ms exceeded"⟩,
         ⟨.click "text=/submit|book now|create/i", some "Timeout 30000ms exceeded"⟩,
         ⟨.waitForNavigation, none⟩]) := by
  refine ⟨fun _ _ => by simp [nothingToClick], by decide⟩

/-- The same form when the navigation wait times out: the failure the message
names is that of the wait. -/
theorem submitBooking_timeout_example :
    (submitBooking nothingToClickNoNavigation []).1 =
      .error "Booking submission failed: Timeout 30000ms exceeded" := by
  decide

/-! ## The tracking-number check -/

theorem onFailure_ok_inv {α : Type} {cfg : Config} {browser : Option Nat} {attemptNo : Nat}
    {msg : String} {retry : Nat → M α} {env : Behaviour} {t t1 : List Event} {a : α}
    (h : onFailure cfg browser attemptNo msg retry env t = (.ok a, t1)) :
    ∃ t2, attemptNo + 1 < cfg.MAX_RETRIES ∧ retry (attemptNo + 1) env t2 = (.ok a, t1) := by
  unfold onFailure at h
  have key : ∀ t2, (if attemptNo + 1 ≥ cfg.MAX_RETRIES then
        throwNew ("Booking failed after " ++ toString cfg.MAX_RETRIES ++ " attempts: " ++ msg)
      else do
        sleep cfg.RETRY_DELAY
        retry (attemptNo + 1)) env t2 = (.ok a, t1) →
      ∃ t3, attemptNo + 1 < cfg.MAX_RETRIES ∧ retry (attemptNo + 1) env t3 = (.ok a, t1) := by
    intro t2 h2
    by_cases hlast : attemptNo + 1 ≥ cfg.MAX_RETRIES
    · rw [if_pos hlast] at h2
      simp [throwNew] at h2
    · rw [if_neg hlast] at h2
      obtain ⟨_, t3, _, h3⟩ := bind_ok_inv h2
      exact ⟨t3, by omega, h3⟩
  cases browser with
  | none =>
    simp only at h
    obtain ⟨_, t2, _, h2⟩ := bind_ok_inv h
    exact key t2 h2
  | some b =>
    simp only at h
    obtain ⟨_, t2, _, h2⟩ := bind_ok_inv h
    exact key t2 h2

/-- A result returned by the loop is the result of the part of an attempt that
follows the launch. -/
theorem bookLoop_ok_inv (cfg : Config) (orderData : OrderData) (env : Behaviour) :
    ∀ (fuel attemptNo : Nat) (browser : Option Nat) (t t1 : List Event) (r : BookingResult),
      bookLoop cfg orderData fuel attemptNo browser env t = (.ok (some r), t1) →
      ∃ b t2, session cfg orderData b env t2 = (.ok r, t1) := by
  intro fuel
  induction fuel with
  | zero =>
    intro _ _ t t1 r h
    simp [bookLoop, pure_run] at h
  | succ n ih =>
    intro attemptNo browser t t1 r h
    unfold bookLoop at h
    by_cases ha : attemptNo < cfg.MAX_RETRIES
    · rw [if_pos ha] at h
      rcases run_cases chromiumLaunch env t with ⟨b, t2, hl⟩ | ⟨m, t2, hl⟩
      · simp only [hl] at h
        rcases run_cases (session cfg orderData b) env t2 with ⟨r1, t3, hs⟩ | ⟨m, t3, hs⟩
        · simp only [hs, Prod.mk.injEq, Except.ok.injEq, Option.some.injEq] at h
          obtain ⟨hr, ht⟩ := h
          subst hr ht
          exact ⟨b, t2, hs⟩
        · simp only [hs] at h
          obtain ⟨t4, _, h4⟩ := onFailure_ok_inv h
          exact ih _ _ _ _ _ h4
      · simp only [hl] at h
        obtain ⟨t4, _, h4⟩ := onFailure_ok_inv h
        exact ih _ _ _ _ _ h4
    · rw [if_neg ha] at h
      simp [pure_run] at h

theorem finish_ok_inv {cfg : Config} {orderData : OrderData} {browser : Nat} {tn : String}
    {env : Behaviour} {t t1 : List Event} {r : BookingResult}
    (h : finish cfg orderData browser tn env t = (.ok r, t1)) :
    r = ⟨true, tn, "Booking completed successfully"⟩ := by
  unfold finish at h
  by_cases hne : (tn != "") = true
  · rw [if_pos hne] at h
    obtain ⟨_, _, _, h⟩ := bind_ok_inv h
    obtain ⟨_, _, _, h⟩ := bind_ok_inv h
    rw [pure_run] at h
    simp only [Prod.mk.injEq, Except.ok.injEq] at h
    exact h.1.symm
  · rw [if_neg hne] at h
    simp [throwNew] at h

/-- The loop never ends without a `return` or a `throw` while attempts remain. -/
theorem bookLoop_ne_undefined (cfg : Config) (orderData : OrderData) (env : Behaviour) :
    ∀ (fuel attemptNo : Nat) (browser : Option Nat) (t t1 : List Event),
      attemptNo + fuel = cfg.MAX_RETRIES → 0 < fuel →
      bookLoop cfg orderData fuel attemptNo browser env t ≠ (.ok none, t1) := by
  intro fuel
  induction fuel with
  | zero => intro _ _ _ _ _ h; omega
  | succ n ih =>
    intro attemptNo browser t t1 hsum _ h
    have ha : attemptNo < cfg.MAX_RETRIES := by omega
    unfold bookLoop at h
    rw [if_pos ha] at h
    rcases run_cases chromiumLaunch env t with ⟨b, t2, hl⟩ | ⟨m, t2, hl⟩
    · simp only [hl] at h
      rcases run_cases (session cfg orderData b) env t2 with ⟨r1, t3, hs⟩ | ⟨m, t3, hs⟩
      · simp [hs] at h
      · simp only [hs] at h
        obtain ⟨t4, hlt, h4⟩ := onFailure_ok_inv h
        exact ih _ _ _ _ (by omega) (by omega) h4
    · simp only [hl] at h
      obtain ⟨t4, hlt, h4⟩ := onFailure_ok_inv h
      exact ih _ _ _ _ (by omega) (by omega) h4

/-- C16: whenever the steps of an attempt reach the tracking-number check, the
value checked is a non-empty string, so the test of line 76 succeeds and the
branch throwing `Could not extract tracking number` is not taken: the end of
the `try` block is the status update, the close and the `return`.  Every result
`bookJTExpress` returns has `success` true and a non-empty `trackingNumber`,
and the call never returns without a result. -/
theorem tracking_number_check_always_passes (penv : ProcessEnv) (orderData : OrderData)
    (env : Behaviour) :
    (∀ (b : Nat) (t t1 : List Event) (tn : String),
      runSteps (CONFIG penv) orderData b env t = (.ok tn, t1) →
      tn ≠ "" ∧
      finish (CONFIG penv) orderData b tn =
        (do
          (if (CONFIG penv).APPS_SCRIPT_WEBHOOK != "" then
            updateOrderStatus (CONFIG penv) (prop orderData.orderId) "Ready to Ship" tn
          else pure ())
          perform (.close b)
          pure { success := true, trackingNumber := tn,
                 message := "Booking completed successfully" })) ∧
    (∀ (t t1 : List Event) (r : BookingResult),
      bookJTExpress (CONFIG penv) orderData env t = (.ok (some r), t1) →
      r.success = true ∧ r.trackingNumber ≠ "") ∧
    (∀ (t t1 : List Event), bookJTExpress (CONFIG penv) orderData env t ≠ (.ok none, t1)) := by
  refine ⟨?_, ?_, ?_⟩
  · intro b t t1 tn h
    have hne := runSteps_ne_empty h
    have hb : (tn != "") = true := by simpa using hne
    refine ⟨hne, ?_⟩
    unfold finish
    rw [if_pos hb]
  · intro t t1 r h
    obtain ⟨b, t2, hs⟩ := bookLoop_ok_inv (CONFIG penv) orderData env _ _ _ _ _ _ h
    unfold session at hs
    obtain ⟨tn, t3, hsteps, hfin⟩ := bind_ok_inv hs
    rw [finish_ok_inv hfin]
    exact ⟨rfl, runSteps_ne_empty hsteps⟩
  · intro t t1
    exact bookLoop_ne_undefined (CONFIG penv) orderData env 3 0 none t t1 rfl (by decide)

theorem tracking_number_check_always_passes_witness :
    (bookJTExpress (CONFIG sampleEnvVars) sampleOrder confirmationWithoutNumber []).1 =
      .ok (some ⟨true, "JT00000123042", "Booking completed successfully"⟩) ∧
    (⟨true, "JT00000123042", "Booking completed successfully"⟩ : BookingResult).success = true ∧
    (⟨true, "JT00000123042", "Booking completed successfully"⟩ : BookingResult).trackingNumber ≠
      "" :=
  ⟨by decide,
    (tracking_number_check_always_passes sampleEnvVars sampleOrder confirmationWithoutNumber).2.1 []
      (bookJTExpress (CONFIG sampleEnvVars) sampleOrder confirmationWithoutNumber []).2
      ⟨true, "JT00000123042", "Booking completed successfully"⟩ (by decide)⟩

/-! ## Best-effort filling -/

/-- A cascade never throws, whatever its interactions do. -/
theorem tryEach_returns {act : String → M Unit} (hemit : ∀ selector, Emits (fun _ => True) (act selector))
    (selectors : List String) (env : Behaviour) (t : List Event) :
    ∃ es, tryEach act selectors env t = (.ok (), t ++ es) := by
  induction selectors generalizing t with
  | nil => exact ⟨[], by simp [tryEach, pure_run]⟩
  | cons s rest ih =>
    obtain ⟨es1, h1, _⟩ := hemit s env t
    rcases run_cases (act s) env t with ⟨_, t1, h⟩ | ⟨msg, t1, h⟩
    · rw [h] at h1
      simp only at h1
      subst h1
      exact ⟨es1, by rw [tryEach, tryCatch_ok h]⟩
    · rw [h] at h1
      simp only at h1
      subst h1
      obtain ⟨es2, h2⟩ := ih (t ++ es1)
      exact ⟨es1 ++ es2, by rw [tryEach, tryCatch_error h, h2, List.append_assoc]⟩

/-- A cascade always attempts its first candidate. -/
theorem tryEach_first {act : String → M Unit} (hemit : ∀ selector, Emits (fun _ => True) (act selector))
    {s : String} {op : Op} (hfirst : act s = perform op) (rest : List String)
    (env : Behaviour) (t : List Event) :
    ∃ es, tryEach act (s :: rest) env t = (.ok (), t ++ es) ∧ [op].Sublist (es.map Event.op) := by
  rw [tryEach, hfirst]
  cases hop : env.fails t op with
  | none =>
    have hp : perform op env t = (.ok (), t ++ [⟨op, none⟩]) := by
      unfold perform
      rw [hop]
    exact ⟨[⟨op, none⟩], tryCatch_ok hp, by simp⟩
  | some msg =>
    have hp : perform op env t = (.error msg, t ++ [⟨op, some msg⟩]) := by
      unfold perform
      rw [hop]
    obtain ⟨es, h⟩ := tryEach_returns hemit rest env (t ++ [⟨op, some msg⟩])
    refine ⟨⟨op, some msg⟩ :: es, by rw [tryCatch_error hp, h]; simp, ?_⟩
    simp only [List.map_cons]
    exact List.Sublist.cons₂ _ (List.nil_sublist _)

/-- A loop over fields whose body always returns, having made its first
interaction, returns having made all these interactions in order. -/
theorem forEach_first {α : Type} {body : α → M Unit} {first : α → Op} (xs : List α)
    (h : ∀ x ∈ xs, ∀ env t, ∃ es, body x env t = (.ok (), t ++ es) ∧
      [first x].Sublist (es.map Event.op)) (env : Behaviour) (t : List Event) :
    ∃ es, forEach body xs env t = (.ok (), t ++ es) ∧
      (xs.map first).Sublist (es.map Event.op) := by
  induction xs generalizing t with
  | nil => exact ⟨[], by simp [forEach, pure_run], by simp⟩
  | cons x rest ih =>
    obtain ⟨es1, h1, hs1⟩ := h x (List.mem_cons_self _ _) env t
    obtain ⟨es2, h2, hs2⟩ := ih (fun y hy => h y (List.mem_cons_of_mem _ hy)) (t ++ es1)
    refine ⟨es1 ++ es2, by rw [forEach, bind_ok h1, h2, List.append_assoc], ?_⟩
    rw [List.map_append]
    exact List.Sublist.append hs1 hs2

theorem emits_any {α : Type} {P : Op → Prop} {m : M α} (h : Emits P m) :
    Emits (fun _ => True) m :=
  emits_mono (fun _ _ => trivial) h

theorem fillSenderInfo_first (cfg : Config) (env : Behaviour) (t : List Event) :
    ∃ es, fillSenderInfo cfg env t = (.ok (), t ++ es) ∧
      ((senderFields cfg).map
        (fun entry => Op.fill ("input[name*=\"" ++ entry.1 ++ "\"]") entry.2)).Sublist
        (es.map Event.op) := by
  unfold fillSenderInfo
  apply forEach_first
  intro entry _ env1 t1
  exact tryEach_first (fun _ => emits_perform trivial) rfl _ env1 t1

theorem fillReceiverInfo_first (orderData : OrderData) (env : Behaviour) (t : List Event) :
    ∃ es, fillReceiverInfo orderData env t = (.ok (), t ++ es) ∧
      ((receiverFields orderData).map
        (fun entry => Op.fill ("input[name*=\"" ++ entry.1 ++ "\"]") entry.2)).Sublist
        (es.map Event.op) := by
  unfold fillReceiverInfo
  apply forEach_first
  intro entry _ env1 t1
  exact tryEach_first (fun _ => emits_perform trivial) rfl _ env1 t1

theorem fillOrSelect_input (value : JsValue) (fieldType : String)
    (h : includes ("input[name*=\"" ++ fieldType ++ "\"]") "select" = false) :
    fillOrSelect value ("input[name*=\"" ++ fieldType ++ "\"]") =
      perform (.fill ("input[name*=\"" ++ fieldType ++ "\"]") value) := by
  unfold fillOrSelect
  rw [h]
  rfl

theorem fillPackageInfo_first (orderData : OrderData) (env : Behaviour) (t : List Event) :
    ∃ es, fillPackageInfo orderData env t = (.ok (), t ++ es) ∧
      ((packageFields orderData).map
        (fun entry => Op.fill ("input[name*=\"" ++ entry.1 ++ "\"]") entry.2)).Sublist
        (es.map Event.op) := by
  unfold fillPackageInfo
  apply forEach_first
  intro entry hentry env1 t1
  have hemit : ∀ selector, Emits (fun _ => True) (fillOrSelect entry.2 selector) :=
    fun selector => emits_any (emits_fillOrSelect entry.2 selector)
  have hname : includes ("input[name*=\"" ++ entry.1 ++ "\"]") "select" = false := by
    simp only [packageFields, List.mem_cons, List.mem_singleton, List.not_mem_nil, or_false]
      at hentry
    rcases hentry with h | h | h | h | h <;> rw [h] <;> simp only <;> decide
  exact tryEach_first hemit (fillOrSelect_input entry.2 entry.1 hname) _ env1 t1

theorem setPaymentMethod_first (env : Behaviour) (t : List Event) :
    ∃ es, setPaymentMethod "prepaid" env t = (.ok (), t ++ es) ∧
      [Op.check "input[value*=\"prepaid\"]"].Sublist (es.map Event.op) := by
  unfold setPaymentMethod
  have hemit : ∀ selector, Emits (fun _ => True) (checkOrSelect "prepaid" selector) :=
    fun selector => emits_any (emits_checkOrSelect "prepaid" selector)
  have hfirst : checkOrSelect "prepaid" "input[value*=\"prepaid\"]" =
      perform (.check "input[value*=\"prepaid\"]") := by
    unfold checkOrSelect
    rw [if_pos (by decide)]
  exact tryEach_first hemit hfirst _ env t

/-- C13: whatever subset of the fill, select and check interactions throws,
`fillBookingForm` does not throw and returns `null`, and no field keeps a
later one from being attempted: the first candidate of each of the four
sender fields, the four receiver fields, the five package fields and of the
payment method is attempted, in this order. -/
theorem fillBookingForm_best_effort (cfg : Config) (orderData : OrderData) (env : Behaviour)
    (t : List Event) :
    ∃ es, fillBookingForm cfg orderData env t = (.ok none, t ++ es) ∧
      (firstCandidates cfg orderData).Sublist (es.map Event.op) := by
  obtain ⟨es1, h1, s1⟩ := fillSenderInfo_first cfg env t
  obtain ⟨es2, h2, s2⟩ := fillReceiverInfo_first orderData env (t ++ es1)
  obtain ⟨es3, h3, s3⟩ := fillPackageInfo_first orderData env (t ++ es1 ++ es2)
  obtain ⟨es4, h4, s4⟩ := setPaymentMethod_first env (t ++ es1 ++ es2 ++ es3)
  refine ⟨es1 ++ es2 ++ es3 ++ es4, ?_, ?_⟩
  · unfold fillBookingForm
    apply tryCatch_ok
    rw [bind_ok h1, bind_ok h2, bind_ok h3, bind_ok h4]
    simp [pure_run, List.append_assoc]
  · unfold firstCandidates
    simp only [List.map_append]
    exact List.Sublist.append (List.Sublist.append (List.Sublist.append s1 s2) s3) s4

/-- The form on which every fill, select and check interaction throws: all
candidates of all fourteen fields are attempted, 68 interactions in all, every
one of them failing, and `null` is returned. -/
theorem fillBookingForm_nothing_fills_example :
    (fillBookingForm (CONFIG sampleEnvVars) sampleOrder nothingToFill []).1 = .ok none ∧
    (fillBookingForm (CONFIG sampleEnvVars) sampleOrder nothingToFill []).2.length = 68 ∧
    (fillBookingForm (CONFIG sampleEnvVars) sampleOrder nothingToFill []).2.all
      (fun e => e.error.isSome) = true := by
  decide

/-! ## Navigation to the booking form -/

theorem visibleAt_or_not (env : Behaviour) (selector : String) (t : List Event) :
    VisibleAt env selector t ∨ NotVisibleAt env selector t := by
  unfold VisibleAt NotVisibleAt
  cases env.fails t (.isVisible selector 2000) <;> cases env.visible t selector <;> simp

theorem clickBookingLink_not_visible {env : Behaviour} {selector : String} {t : List Event}
    (rest : List String) (h : NotVisibleAt env selector t) :
    ∃ e, e.op = .isVisible selector 2000 ∧
      clickBookingLink (selector :: rest) env t = clickBookingLink rest env (t ++ [e]) := by
  rw [clickBookingLink]
  cases hf : env.fails t (.isVisible selector 2000) with
  | some msg =>
    refine ⟨⟨.isVisible selector 2000, some msg⟩, rfl, ?_⟩
    simp [bind_run, tryCatch, isVisible, hf, pure_run]
  | none =>
    have hv : env.visible t selector = false := by
      rcases h with h | h
      · exact absurd hf h
      · exact h
    refine ⟨⟨.isVisible selector 2000, none⟩, rfl, ?_⟩
    simp [bind_run, tryCatch, isVisible, hf, hv, pure_run]

theorem clickBookingLink_visible {env : Behaviour} {selector : String} {t : List Event}
    (rest : List String) (h : VisibleAt env selector t)
    (hclick : ∀ t1 s, env.fails t1 (.elementClick s) = none)
    (hwait : ∀ t1, env.fails t1 .waitForNavigation = none) :
    clickBookingLink (selector :: rest) env t =
      (.ok (), t ++ [⟨.isVisible selector 2000, none⟩, ⟨.elementClick selector, none⟩,
        ⟨.waitForNavigation, none⟩]) := by
  rw [clickBookingLink]
  simp [bind_run, tryCatch, isVisible, perform, h.1, h.2, hclick, hwait, pure_run]

/-- The loop over the booking candidates when no click and no navigation wait
throws: the candidates are probed in order; either none is found visible and
none is clicked, or the first one found visible is clicked, the navigation is
awaited, and nothing happens after that. -/
theorem clickBookingLink_run (env : Behaviour)
    (hclick : ∀ t1 s, env.fails t1 (.elementClick s) = none)
    (hwait : ∀ t1, env.fails t1 .waitForNavigation = none) (selectors : List String) :
    ∀ t, ∃ es, clickBookingLink selectors env t = (.ok (), t ++ es) ∧
      ((es.map Event.op = selectors.map (fun s => Op.isVisible s 2000) ∧
          ∀ pre s post, selectors = pre ++ s :: post →
            NotVisibleAt env s (t ++ es.take pre.length)) ∨
        ∃ pre sel post, selectors = pre ++ sel :: post ∧
          es.map Event.op = pre.map (fun s => Op.isVisible s 2000) ++
            [.isVisible sel 2000, .elementClick sel, .waitForNavigation] ∧
          VisibleAt env sel (t ++ es.take pre.length) ∧
          ∀ pre1 s post1, pre = pre1 ++ s :: post1 →
            NotVisibleAt env s (t ++ es.take pre1.length)) := by
  induction selectors with
  | nil =>
    intro t
    refine ⟨[], by simp [clickBookingLink, pure_run], Or.inl ⟨rfl, ?_⟩⟩
    intro pre s post h
    simp at h
  | cons s0 rest ih =>
    intro t
    rcases visibleAt_or_not env s0 t with hv | hnv
    · refine ⟨_, clickBookingLink_visible rest hv hclick hwait, Or.inr ⟨[], s0, rest, rfl, rfl, ?_, ?_⟩⟩
      · simpa using hv
      · intro pre1 s post1 h
        simp at h
    · obtain ⟨e, hop, hstep⟩ := clickBookingLink_not_visible rest hnv
      obtain ⟨es, hrun, hshape⟩ := ih (t ++ [e])
      refine ⟨e :: es, by rw [hstep, hrun]; simp, ?_⟩
      have shift : ∀ (pre : List String) (s : String),
          (∀ pre1 s1 post1, pre = pre1 ++ s1 :: post1 →
            NotVisibleAt env s1 (t ++ [e] ++ es.take pre1.length)) →
          ∀ pre1 s1 post1, s0 :: pre = pre1 ++ s1 :: post1 →
            NotVisibleAt env s1 (t ++ (e :: es).take pre1.length) := by
        intro pre _ hall pre1 s1 post1 heq
        cases pre1 with
        | nil =>
          simp only [List.nil_append, List.cons.injEq] at heq
          rw [← heq.1]
          simpa using hnv
        | cons p pre2 =>
          simp only [List.cons_append, List.cons.injEq] at heq
          have := hall pre2 s1 post1 heq.2
          simpa [List.append_assoc] using this
      rcases hshape with ⟨hops, hall⟩ | ⟨pre, sel, post, hsel, hops, hvis, hall⟩
      · refine Or.inl ⟨by simp [hop, hops], ?_⟩
        exact shift rest s0 hall
      · refine Or.inr ⟨s0 :: pre, sel, post, by simp [hsel], by simp [hop, hops], ?_, ?_⟩
        · simpa [List.append_assoc] using hvis
        · exact shift pre s0 hall

theorem clickBookingLink_passed_over {env : Behaviour} {selector : String} {t : List Event}
    (rest : List String) (h : NotVisibleAt env selector t) :
    clickBookingLink (selector :: rest) env t =
      clickBookingLink rest env
        (t ++ [⟨.isVisible selector 2000, env.fails t (.isVisible selector 2000)⟩]) := by
  rw [clickBookingLink]
  cases hf : env.fails t (.isVisible selector 2000) with
  | some msg => simp [bind_run, tryCatch, isVisible, hf, pure_run]
  | none =>
    have hv : env.visible t selector = false := by
      rcases h with h | h
      · exact absurd hf h
      · exact h
    simp [bind_run, tryCatch, isVisible, hf, hv, pure_run]

theorem clickBookingLink_click_throws {env : Behaviour} {selector msg : String}
    {t : List Event} (rest : List String) (h : VisibleAt env selector t)
    (hclick : env.fails (t ++ [⟨.isVisible selector 2000, none⟩]) (.elementClick selector) =
      some msg) :
    clickBookingLink (selector :: rest) env t =
      clickBookingLink rest env
        (t ++ [⟨.isVisible selector 2000, none⟩, ⟨.elementClick selector, some msg⟩]) := by
  rw [clickBookingLink]
  simp [bind_run, tryCatch, isVisible, perform, h.1, h.2, hclick, pure_run]

theorem clickBookingLink_wait_throws {env : Behaviour} {selector msg : String}
    {t : List Event} (rest : List String) (h : VisibleAt env selector t)
    (hclick : env.fails (t ++ [⟨.isVisible selector 2000, none⟩]) (.elementClick selector) =
      none)
    (hwait : env.fails
      (t ++ [⟨.isVisible selector 2000, none⟩, ⟨.elementClick selector, none⟩])
      .waitForNavigation = some msg) :
    clickBookingLink (selector :: rest) env t =
      clickBookingLink rest env
        (t ++ [⟨.isVisible selector 2000, none⟩, ⟨.elementClick selector, none⟩,
          ⟨.waitForNavigation, some msg⟩]) := by
  rw [clickBookingLink]
  simp [bind_run, tryCatch, isVisible, perform, h.1, h.2, hclick, hwait, pure_run]

theorem clickBookingLink_clicked {env : Behaviour} {selector : String}
    {t : List Event} (rest : List String) (h : VisibleAt env selector t)
    (hclick : env.fails (t ++ [⟨.isVisible selector 2000, none⟩]) (.elementClick selector) =
      none)
    (hwait : env.fails
      (t ++ [⟨.isVisible selector 2000, none⟩, ⟨.elementClick selector, none⟩])
      .waitForNavigation = none) :
    clickBookingLink (selector :: rest) env t =
      (.ok (), t ++ [⟨.isVisible selector 2000, none⟩, ⟨.elementClick selector, none⟩,
        ⟨.waitForNavigation, none⟩]) := by
  rw [clickBookingLink]
  simp [bind_run, tryCatch, isVisible, perform, h.1, h.2, hclick, hwait, pure_run]

/-- The loop over the booking candidates, on every behaviour: it returns, and
what it adds to the trace is a scan of the candidates in which a throwing
click or navigation wait is followed by the next candidate. -/
theorem clickBookingLink_scan (env : Behaviour) (selectors : List String) :
    ∀ t, ∃ es, clickBookingLink selectors env t = (.ok (), t ++ es) ∧
      BookingScan env selectors t es := by
  induction selectors with
  | nil =>
    intro t
    exact ⟨[], by simp [clickBookingLink, pure_run], BookingScan.done t⟩
  | cons s rest ih =>
    intro t
    rcases visibleAt_or_not env s t with hv | hnv
    · cases hc : env.fails (t ++ [⟨.isVisible s 2000, none⟩]) (.elementClick s) with
      | some msg =>
        obtain ⟨es, hrun, hscan⟩ :=
          ih (t ++ [⟨.isVisible s 2000, none⟩, ⟨.elementClick s, some msg⟩])
        refine ⟨⟨.isVisible s 2000, none⟩ :: ⟨.elementClick s, some msg⟩ :: es, ?_,
          BookingScan.clickThrows hv hc hscan⟩
        rw [clickBookingLink_click_throws rest hv hc, hrun]
        simp
      | none =>
        cases hw : env.fails (t ++ [⟨.isVisible s 2000, none⟩, ⟨.elementClick s, none⟩])
            .waitForNavigation with
        | some msg =>
          obtain ⟨es, hrun, hscan⟩ :=
            ih (t ++ [⟨.isVisible s 2000, none⟩, ⟨.elementClick s, none⟩,
              ⟨.waitForNavigation, some msg⟩])
          refine ⟨⟨.isVisible s 2000, none⟩ :: ⟨.elementClick s, none⟩ ::
            ⟨.waitForNavigation, some msg⟩ :: es, ?_, BookingScan.waitThrows hv hc hw hscan⟩
          rw [clickBookingLink_wait_throws rest hv hc hw, hrun]
          simp
        | none =>
          exact ⟨_, clickBookingLink_clicked rest hv hc hw, BookingScan.clicked hv hc hw⟩
    · obtain ⟨es, hrun, hscan⟩ :=
        ih (t ++ [⟨.isVisible s 2000, env.fails t (.isVisible s 2000)⟩])
      refine ⟨⟨.isVisible s 2000, env.fails t (.isVisible s 2000)⟩ :: es, ?_,
        BookingScan.passedOver hnv hscan⟩
      rw [clickBookingLink_passed_over rest hnv, hrun]
      simp

theorem elementClicks_eq (es : List Event) :
    elementClicks es =
      (es.map Event.op).countP (fun op => match op with | .elementClick _ => true | _ => false) := by
  unfold elementClicks
  rw [List.countP_map]
  rfl

theorem countP_click_probes (selectors : List String) :
    (selectors.map (fun s => Op.isVisible s 2000)).countP
      (fun op => match op with | .elementClick _ => true | _ => false) = 0 := by
  rw [List.countP_eq_zero]
  intro op hop
  obtain ⟨s, _, hs⟩ := List.mem_map.mp hop
  subst hs
  simp

theorem navigateToBookingForm_trace (env : Behaviour) (t es : List Event)
    (h : clickBookingLink bookingSelectors env t = (.ok (), t ++ es)) :
    ∃ e, (navigateToBookingForm env t).2 = t ++ es ++ [e] ∧
      e.op = .isVisible "text=/sender|receiver|package|booking/i" 5000 := by
  cases hf : env.fails (t ++ es) (.isVisible "text=/sender|receiver|package|booking/i" 5000) with
  | some msg =>
    refine ⟨⟨_, some msg⟩, ?_, rfl⟩
    simp [navigateToBookingForm, tryCatch, bind_run, h, isVisible, hf, throwNew]
  | none =>
    refine ⟨⟨_, none⟩, ?_, rfl⟩
    cases hv : env.visible (t ++ es) "text=/sender|receiver|package|booking/i" <;>
      simp [navigateToBookingForm, tryCatch, bind_run, h, isVisible, hf, hv, throwNew, pure_run]

/-- C15, as amended: on every behaviour `navigateToBookingForm` probes the
booking candidates in list order; a candidate that is not visible is passed
over, a visible one is clicked and the navigation awaited; when the click or
the navigation wait throws the loop goes on to the next candidate, and when
both resolve no later candidate is probed or clicked; the only interaction
that follows the loop is the probe that verifies the booking form.  When no
click and no navigation wait throws, at most one candidate is clicked, namely
the first one found visible. -/
theorem navigateToBookingForm_single_click (env : Behaviour) (t : List Event) :
    ∃ es e, (navigateToBookingForm env t).2 = t ++ es ++ [e] ∧
      e.op = .isVisible "text=/sender|receiver|package|booking/i" 5000 ∧
      BookingScan env bookingSelectors t es ∧
      ((∀ t1 s, env.fails t1 (.elementClick s) = none) →
        (∀ t1, env.fails t1 .waitForNavigation = none) →
        elementClicks (es ++ [e]) ≤ 1 ∧
        ((es.map Event.op = bookingSelectors.map (fun s => Op.isVisible s 2000) ∧
            ∀ pre s post, bookingSelectors = pre ++ s :: post →
              NotVisibleAt env s (t ++ es.take pre.length)) ∨
          ∃ pre sel post, bookingSelectors = pre ++ sel :: post ∧
            es.map Event.op = pre.map (fun s => Op.isVisible s 2000) ++
              [.isVisible sel 2000, .elementClick sel, .waitForNavigation] ∧
            VisibleAt env sel (t ++ es.take pre.length) ∧
            ∀ pre1 s post1, pre = pre1 ++ s :: post1 →
              NotVisibleAt env s (t ++ es.take pre1.length))) := by
  obtain ⟨es, hrun, hscan⟩ := clickBookingLink_scan env bookingSelectors t
  obtain ⟨e, htrace, hop⟩ := navigateToBookingForm_trace env t es hrun
  refine ⟨es, e, htrace, hop, hscan, ?_⟩
  intro hclick hwait
  obtain ⟨es1, hrun1, hshape1⟩ := clickBookingLink_run env hclick hwait bookingSelectors t
  have hes : es1 = es := by
    rw [hrun] at hrun1
    simp only [Prod.mk.injEq, true_and] at hrun1
    exact (List.append_cancel_left hrun1).symm
  subst hes
  refine ⟨?_, hshape1⟩
  rw [elementClicks_eq, List.map_append, List.countP_append]
  have he : ([e].map Event.op).countP
      (fun op => match op with | .elementClick _ => true | _ => false) = 0 := by
    simp [hop]
  rw [he]
  rcases hshape1 with ⟨hops, _⟩ | ⟨pre, sel, post, _, hops, _, _⟩
  · rw [hops, countP_click_probes]
    omega
  · rw [hops, List.countP_append, countP_click_probes]
    simp

theorem navigateToBookingForm_single_click_witness :
    ∃ es e, (navigateToBookingForm onlyBookingButton []).2 = [] ++ es ++ [e] ∧
      e.op = .isVisible "text=/sender|receiver|package|booking/i" 5000 ∧
      BookingScan onlyBookingButton bookingSelectors [] es ∧
      elementClicks (es ++ [e]) ≤ 1 ∧
      ((es.map Event.op = bookingSelectors.map (fun s => Op.isVisible s 2000) ∧
          ∀ pre s post, bookingSelectors = pre ++ s :: post →
            NotVisibleAt onlyBookingButton s ([] ++ es.take pre.length)) ∨
        ∃ pre sel post, bookingSelectors = pre ++ sel :: post ∧
          es.map Event.op = pre.map (fun s => Op.isVisible s 2000) ++
            [.isVisible sel 2000, .elementClick sel, .waitForNavigation] ∧
          VisibleAt onlyBookingButton sel ([] ++ es.take pre.length) ∧
          ∀ pre1 s post1, pre = pre1 ++ s :: post1 →
            NotVisibleAt onlyBookingButton s ([] ++ es.take pre1.length)) := by
  obtain ⟨es, e, h1, h2, h3, h4⟩ := navigateToBookingForm_single_click onlyBookingButton []
  exact ⟨es, e, h1, h2, h3, h4 (fun _ _ => rfl) (fun _ => rfl)⟩

/-- The dashboard on which the click on the first candidate throws: the loop
goes on, and the second candidate is probed and clicked. -/
theorem navigateToBookingForm_click_throws_example :
    (navigateToBookingForm firstClickThrows []).2 =
      [⟨.isVisible "text=/create.*shipment/i" 2000, none⟩,
       ⟨.elementClick "text=/create.*shipment/i", some "Element is not attached"⟩,
       ⟨.isVisible "text=/new.*booking/i" 2000, none⟩,
       ⟨.elementClick "text=/new.*booking/i", none⟩,
       ⟨.waitForNavigation, none⟩,
       ⟨.isVisible "text=/sender|receiver|package|booking/i" 5000, none⟩] := by
  decide

/-- The dashboard whose only candidate is the button of class `booking-btn`:
three candidates are probed and passed over, the fourth is clicked, and the
remaining three are neither probed nor clicked. -/
theorem navigateToBookingForm_fourth_candidate_example :
    (navigateToBookingForm onlyBookingButton []).2.map Event.op =
      [.isVisible "text=/create.*shipment/i" 2000, .isVisible "text=/new.*booking/i" 2000,
       .isVisible "text=/book.*shipment/i" 2000, .isVisible ".booking-btn" 2000,
       .elementClick ".booking-btn", .waitForNavigation,
       .isVisible "text=/sender|receiver|package|booking/i" 5000] := by
  decide

/-- C15 as stated fails when the navigation wait throws after a click: the
`catch` of line 199 goes on to the next candidate, and every one of the seven
visible candidates is clicked in turn. -/
theorem navigateToBookingForm_clicks_every_candidate :
    (navigateToBookingForm navigationNeverSettles []).1 = .ok () ∧
    elementClicks (navigateToBookingForm navigationNeverSettles []).2 = 7 ∧
    ((navigateToBookingForm navigationNeverSettles []).2.map Event.op).take 6 =
      [.isVisible "text=/create.*shipment/i" 2000, .elementClick "text=/create.*shipment/i",
       .waitForNavigation, .isVisible "text=/new.*booking/i" 2000,
       .elementClick "text=/new.*booking/i", .waitForNavigation] := by
  decide

/-! ## Order-form validation -/

theorem missingOrShort_eq_false_iff (formData : String → Option String) (name : String)
    (n : Nat) (hn : 0 < n) :
    missingOrShort (formData name) n = false ↔ LongEnough formData name n := by
  unfold LongEnough
  cases h : formData name with
  | none => simp [missingOrShort]
  | some s =>
    simp only [missingOrShort, Bool.or_eq_false_iff, decide_eq_false_iff_not, Nat.not_lt,
      Option.some.injEq, exists_eq_left']
    constructor
    · intro h1
      exact h1.2
    · intro h1
      refine ⟨?_, h1⟩
      by_cases hs : s = ""
      · subst hs
        have : jsLength (trim "") = 0 := by decide
        omega
      · simpa using hs

theorem nineDigits_iff (cs : List Char) :
    nineDigits cs = true ↔ cs.length = 9 ∧ ∀ d ∈ cs, d.isDigit = true := by
  simp [nineDigits]

theorem phoneRegexTest_iff (s : String) :
    phoneRegexTest s = true ↔
      ∃ ds, (s.data = '0' :: '9' :: ds ∨ s.data = '+' :: '6' :: '3' :: '9' :: ds) ∧
        ds.length = 9 ∧ ∀ d ∈ ds, d.isDigit = true := by
  unfold phoneRegexTest
  split
  · rename_i rest h
    rw [nineDigits_iff]
    constructor
    · intro hd
      exact ⟨rest, Or.inl h, hd⟩
    · rintro ⟨ds, hds | hds, hd⟩
      · rw [h] at hds
        simp only [List.cons.injEq, true_and] at hds
        rw [hds]
        exact hd
      · rw [h] at hds
        simp at hds
  · rename_i rest h
    rw [nineDigits_iff]
    constructor
    · intro hd
      exact ⟨rest, Or.inr h, hd⟩
    · rintro ⟨ds, hds | hds, hd⟩
      · rw [h] at hds
        simp at hds
      · rw [h] at hds
        simp only [List.cons.injEq, true_and] at hds
        rw [hds]
        exact hd
  · rename_i h1 h2
    constructor
    · intro h
      exact absurd h (by simp)
    · rintro ⟨ds, hds | hds, _⟩
      · exact absurd hds (h1 ds)
      · exact absurd hds (h2 ds)

theorem contactInvalid_eq_false_iff (formData : String → Option String) :
    contactInvalid (formData "contact") = false ↔ ContactOk formData := by
  unfold ContactOk
  cases h : formData "contact" with
  | none => simp [contactInvalid]
  | some s =>
    simp only [contactInvalid, Bool.or_eq_false_iff, Bool.not_eq_false', Option.some.injEq,
      exists_and_left, exists_eq_left']
    rw [phoneRegexTest_iff]
    constructor
    · rintro ⟨_, ds, h1, h2⟩
      exact ⟨ds, h1, h2⟩
    · rintro ⟨ds, h1, h2⟩
      refine ⟨?_, ds, h1, h2⟩
      by_cases hs : s = ""
      · subst hs
        rcases h1 with h1 | h1 <;> simp [removeWhitespace] at h1
      · simpa using hs

theorem validateOrderForm_eq (formData : String → Option String) :
    validateOrderForm formData =
      (if missingOrShort (formData "customerName") 2 then
        ["Please enter a valid customer name (minimum 2 characters)"] else []) ++
      (if contactInvalid (formData "contact") then
        ["Please enter a valid Philippine mobile number (09xxxxxxxxx)"] else []) ++
      (if missingOrShort (formData "address") 10 then
        ["Please enter a complete shipping address (minimum 10 characters)"] else []) := by
  unfold validateOrderForm
  dsimp only
  cases missingOrShort (formData "customerName") 2 <;>
    cases contactInvalid (formData "contact") <;>
    cases missingOrShort (formData "address") 10 <;> rfl

/-- C14: `validateOrderForm` returns no error exactly when the customer name is
present with a trimmed length of at least 2, the contact with all whitespace
removed is `09` or `+639` followed by exactly nine decimal digits, and the
address is present with a trimmed length of at least 10 (lengths as
`String.length` counts them).  Otherwise it returns one message per violated
rule and no other, in the order name, contact, address. -/
theorem validateOrderForm_spec (formData : String → Option String) :
    (validateOrderForm formData = [] ↔
      LongEnough formData "customerName" 2 ∧ ContactOk formData ∧
        LongEnough formData "address" 10) ∧
    (validateOrderForm formData).Sublist
      ["Please enter a valid customer name (minimum 2 characters)",
       "Please enter a valid Philippine mobile number (09xxxxxxxxx)",
       "Please enter a complete shipping address (minimum 10 characters)"] ∧
    ("Please enter a valid customer name (minimum 2 characters)" ∈ validateOrderForm formData ↔
      ¬ LongEnough formData "customerName" 2) ∧
    ("Please enter a valid Philippine mobile number (09xxxxxxxxx)" ∈
      validateOrderForm formData ↔ ¬ ContactOk formData) ∧
    ("Please enter a complete shipping address (minimum 10 characters)" ∈
      validateOrderForm formData ↔ ¬ LongEnough formData "address" 10) := by
  rw [validateOrderForm_eq]
  rw [← missingOrShort_eq_false_iff formData "customerName" 2 (by decide),
    ← missingOrShort_eq_false_iff formData "address" 10 (by decide),
    ← contactInvalid_eq_false_iff formData]
  cases missingOrShort (formData "customerName") 2 <;>
    cases contactInvalid (formData "contact") <;>
    cases missingOrShort (formData "address") 10 <;> decide

/-- The form of the end-to-end scenario passes; a form with a one-letter name,
a landline number and no address gets the three messages in order. -/
theorem validateOrderForm_examples :
    validateOrderForm sampleForm = [] ∧
    validateOrderForm badForm =
      ["Please enter a valid customer name (minimum 2 characters)",
       "Please enter a valid Philippine mobile number (09xxxxxxxxx)",
       "Please enter a complete shipping address (minimum 10 characters)"] := by
  decide

end OrderSystem
